import Mathlib

/-!
Shallow embedding of the pawtal content-lifecycle backend
(src/backend/src of the repository) and proofs about it.

The database is modelled as an explicit in-memory state (`DB`); each
service function from `services/articles.rs`, `services/pages.rs`,
`services/audit.rs`, `tasks.rs` and `api/trash.rs` becomes a Lean
function threading that state.  SQL statements are translated one for
one: `SELECT ... WHERE id = ?` becomes `List.find?`, `UPDATE ... WHERE
id = ?` becomes a `List.map` that rewrites the matching rows, `DELETE
... WHERE p` becomes a `List.filter` keeping the rows for which `p`
fails, and `INSERT` appends.  Timestamps are integers (seconds); SQLite
`datetime('now')` becomes an explicit `now : Int` argument, and
`datetime('now', '-30 days')` becomes `now - days30`.

Fallibility: in the Rust code every sqlx call can fail.  The claims
under study only depend on failure of the audit-log INSERT and of the
five statements run by the background scheduler, so a `Faults` record
injects failure exactly at those call sites; all other statements are
modelled as succeeding.  A failed statement leaves the state
accumulated so far in place (sqlx runs no transaction here), which the
embedding mirrors by returning the partial state next to the error.
-/

namespace Pawtal

deriving instance DecidableEq for Except

/-- Error taxonomy from `src/backend/src/error.rs` (`AppError`).
`Database` carries the rendered sqlx error text. -/
inductive AppError where
  | NotFound
  | Unauthorized
  | Forbidden
  | BadRequest (msg : String)
  | Conflict (msg : String)
  | Database (msg : String)
  | Internal (msg : String)
deriving DecidableEq, Repr

/-- `pages` row, from `db/models.rs` (`Page`). -/
structure Page where
  id : String
  title : String
  slug : String
  content : String
  status : String
  publish_at : Option Int
  author_id : String
  created_at : Int
  updated_at : Int
  trashed_at : Option Int
deriving DecidableEq, Repr

/-- `page_revisions` row, from `db/models.rs` (`PageRevision`). -/
structure PageRevision where
  id : String
  page_id : String
  title : String
  content : String
  author_id : String
  created_at : Int
deriving DecidableEq, Repr

/-- `articles` row, from `db/models.rs` (`Article`). -/
structure Article where
  id : String
  title : String
  slug : String
  short_text : String
  content : String
  status : String
  publish_at : Option Int
  author_id : String
  created_at : Int
  updated_at : Int
  trashed_at : Option Int
  cover_image_id : Option String
  reading_time_minutes : Int
deriving DecidableEq, Repr

/-- `article_revisions` row, from `db/models.rs` (`ArticleRevision`). -/
structure ArticleRevision where
  id : String
  article_id : String
  title : String
  short_text : String
  content : String
  author_id : String
  created_at : Int
deriving DecidableEq, Repr

/-- `audit_log` row, from `services/audit.rs`.  The JSON `details`
payload is modelled as a key/value list. -/
structure AuditEntry where
  id : String
  user_id : String
  action : String
  entity_type : String
  entity_id : String
  details : List (String × String)
deriving DecidableEq, Repr

/-- `sessions` row, from `db/models.rs` (`Session`), restricted to the
fields the scheduler touches. -/
structure Session where
  id : String
  user_id : String
  expires_at : Int
deriving DecidableEq, Repr

/-- `CreatePage` input DTO from `db/models.rs`. -/
structure CreatePage where
  title : String
  slug : Option String
  content : Option String
  status : Option String
  publish_at : Option Int
  category_ids : Option (List String)
deriving DecidableEq, Repr

/-- `UpdatePage` input DTO from `db/models.rs`. -/
structure UpdatePage where
  title : Option String
  slug : Option String
  content : Option String
  status : Option String
  publish_at : Option Int
  category_ids : Option (List String)
deriving DecidableEq, Repr

/-- `CreateArticle` input DTO from `db/models.rs`. -/
structure CreateArticle where
  title : String
  slug : Option String
  short_text : Option String
  content : Option String
  status : Option String
  publish_at : Option Int
  category_ids : Option (List String)
  cover_image_id : Option String
deriving DecidableEq, Repr

/-- `UpdateArticle` input DTO from `db/models.rs`. -/
structure UpdateArticle where
  title : Option String
  slug : Option String
  short_text : Option String
  content : Option String
  status : Option String
  publish_at : Option Int
  category_ids : Option (List String)
  cover_image_id : Option String
deriving DecidableEq, Repr

/-- The whole SQLite database as one value.  Join tables
(`article_categories`, `page_categories`) are lists of
(item id, category id) pairs.  `uuid_counter` supplies the fresh ids
that `Uuid::new_v4()` produces in Rust. -/
structure DB where
  articles : List Article
  article_revisions : List ArticleRevision
  article_categories : List (String × String)
  pages : List Page
  page_revisions : List PageRevision
  page_categories : List (String × String)
  audit_log : List AuditEntry
  sessions : List Session
  uuid_counter : Nat
deriving DecidableEq, Repr

/-- Failure injection for the fallible statements the claims depend on:
the audit-log INSERT (`services/audit.rs`) and the five statements of
`run_scheduled_tasks` (`tasks.rs`).  `true` means that statement's
sqlx call fails. -/
structure Faults where
  audit_insert : Bool
  promote_pages : Bool
  promote_articles : Bool
  sweep_pages : Bool
  sweep_articles : Bool
  sweep_sessions : Bool
deriving DecidableEq, Repr

/-- All statements succeed. -/
def noFaults : Faults := ⟨false, false, false, false, false, false⟩

/-- Fresh id supply standing in for `Uuid::new_v4().to_string()`. -/
def fresh_uuid (db : DB) : String × DB :=
  ("uuid-" ++ toString db.uuid_counter, { db with uuid_counter := db.uuid_counter + 1 })

/-- The 30-day retention window of `datetime('now', '-30 days')`,
in seconds. -/
def days30 : Int := 30 * 86400

-- ── helpers.rs ───────────────────────────────────────────────────────

/-- Removes everything between `<` and `>` (the tag-stripping loop at
the top of `estimate_reading_time` in `services/articles.rs`), pushing
a space for every closed tag. -/
def strip_html (html : String) : String :=
  let step : Bool × String → Char → Bool × String := fun st c =>
    if c = '<' then (true, st.2)
    else if c = '>' then (false, st.2.push ' ')
    else if st.1 = false then (st.1, st.2.push c)
    else st
  (html.toList.foldl step (false, "")).2

/-- `split_whitespace().count()` on the stripped text. -/
def word_count (s : String) : Nat :=
  ((s.split fun c => c.isWhitespace).filter fun w => w ≠ "").length

/-- `estimate_reading_time` from `services/articles.rs`: words / 200
rounded up, minimum 1.  The Rust source computes
`((word_count as f64) / 200.0).ceil().max(1.0) as i32`; for the
magnitudes an i32 can hold the f64 arithmetic is exact enough that the
result is the integer ceiling, written here as `(wc + 199) / 200`. -/
def estimate_reading_time (html : String) : Int :=
  let wc := word_count (strip_html html)
  max 1 (((wc : Int) + 199) / 200)

/-- Collapses runs of consecutive dashes to a single dash. -/
def collapse_dashes : List Char → List Char
  | [] => []
  | [c] => [c]
  | c :: c2 :: rest =>
    if c = '-' ∧ c2 = '-' then collapse_dashes (c2 :: rest)
    else c :: collapse_dashes (c2 :: rest)

/-- Modelled from the spec: `slugify` lives in `src/backend/src/helpers.rs`,
which is not part of the provided sources; spec section 4.1 describes it as
deriving a slug deterministically from the title — lowercase,
non-alphanumeric runs collapsed to single separators, leading and
trailing separators trimmed. -/
def slugify (title : String) : String :=
  let cs := title.toList.map fun c =>
    let lc := c.toLower
    if lc.isAlphanum then lc else '-'
  let cs := collapse_dashes cs
  let cs := ((cs.dropWhile fun c => c = '-').reverse.dropWhile fun c => c = '-').reverse
  String.mk cs

-- ── services/audit.rs ────────────────────────────────────────────────

namespace Audit

/-- `log_action` from `services/audit.rs`: appends one `audit_log` row.
The function returns `AppResult<()>`; a failing INSERT surfaces as
`AppError::Database` (sqlx error converted by `#[from]`). -/
def log_action (db : DB) (faults : Faults) (user_id action entity_type entity_id : String)
    (details : List (String × String)) : Except AppError Unit × DB :=
  if faults.audit_insert then
    (.error (.Database "audit log insert failed"), db)
  else
    let (aid, db) := fresh_uuid db
    (.ok (), { db with audit_log :=
        db.audit_log ++ [⟨aid, user_id, action, entity_type, entity_id, details⟩] })

end Audit

-- ── services/articles.rs ─────────────────────────────────────────────

namespace Articles

/-- `SELECT ... FROM articles WHERE id = ?` (point lookup). -/
def find_row (l : List Article) (id : String) : Option Article :=
  l.find? fun x => x.id == id

/-- `UPDATE articles SET ... WHERE id = ?`: rewrites the matching rows
with `g`, leaves the rest alone. -/
def update_rows (l : List Article) (id : String) (g : Article → Article) : List Article :=
  l.map fun x => if x.id == id then g x else x

/-- `get_article`: point lookup by primary key, `NotFound` if absent. -/
def get_article (db : DB) (id : String) : Except AppError Article :=
  match find_row db.articles id with
  | some a => .ok a
  | none => .error .NotFound

/-- `ensure_slug_unique` from `services/articles.rs`: `SELECT id FROM
articles WHERE slug = ? LIMIT 1`, then the three-way match on
(existing id, exclude id). -/
def ensure_slug_unique (db : DB) (slug : String) (exclude_id : Option String) :
    Except AppError Unit :=
  let existing_id := (db.articles.find? fun a => a.slug == slug).map fun a => a.id
  match existing_id, exclude_id with
  | none, _ => .ok ()
  | some found_id, some excluded =>
    if found_id == excluded then .ok ()
    else .error (.Conflict ("An article with slug \x27" ++ slug ++ "\x27 already exists"))
  | some _, none =>
    .error (.Conflict ("An article with slug \x27" ++ slug ++ "\x27 already exists"))

/-- `set_article_categories`: delete-then-insert on the join table. -/
def set_article_categories (db : DB) (article_id : String) (category_ids : List String) : DB :=
  let db := { db with article_categories :=
      db.article_categories.filter fun pc => pc.1 != article_id }
  { db with article_categories :=
      db.article_categories ++ category_ids.map fun cid => (article_id, cid) }

/-- `create_revision` (articles): INSERT into `article_revisions`;
`created_at` takes the schema default `datetime('now')`. -/
def create_revision (db : DB) (article_id title short_text content author_id : String)
    (now : Int) : DB :=
  let (rid, db) := fresh_uuid db
  { db with article_revisions :=
      db.article_revisions ++ [⟨rid, article_id, title, short_text, content, author_id, now⟩] }

/-- `create_article`: slug derivation, uniqueness check, INSERT, optional
category assignment, seed revision, audit event, re-fetch. -/
def create_article (db : DB) (faults : Faults) (input : CreateArticle) (author_id : String)
    (now : Int) : Except AppError Article × DB :=
  let slug := input.slug.getD (slugify input.title)
  match ensure_slug_unique db slug none with
  | .error e => (.error e, db)
  | .ok _ =>
    let (id, db) := fresh_uuid db
    let short_text := input.short_text.getD ""
    let content := input.content.getD ""
    let status := input.status.getD "draft"
    let reading_time := estimate_reading_time content
    let row : Article :=
      { id := id
        title := input.title
        slug := slug
        short_text := short_text
        content := content
        status := status
        publish_at := input.publish_at
        author_id := author_id
        created_at := now
        updated_at := now
        trashed_at := none
        cover_image_id := input.cover_image_id
        reading_time_minutes := reading_time }
    let db := { db with articles := db.articles ++ [row] }
    let db := match input.category_ids with
      | some cat_ids => set_article_categories db id cat_ids
      | none => db
    let db := create_revision db id input.title short_text content author_id now
    match Audit.log_action db faults author_id "create" "article" id
        [("title", input.title), ("slug", slug), ("status", status)] with
    | (.error e, db) => (.error e, db)
    | (.ok _, db) =>
      match get_article db id with
      | .error e => (.error e, db)
      | .ok a => (.ok a, db)

/-- `update_article`: merge supplied fields over the existing row,
re-check the slug only when it changed, UPDATE the row, optional
category replacement, append a revision, audit event, re-fetch. -/
def update_article (db : DB) (faults : Faults) (id : String) (input : UpdateArticle)
    (user_id : String) (now : Int) : Except AppError Article × DB :=
  match get_article db id with
  | .error e => (.error e, db)
  | .ok existing =>
    let title := input.title.getD existing.title
    let short_text := input.short_text.getD existing.short_text
    let content := input.content.getD existing.content
    let status := input.status.getD existing.status
    let publish_at := if input.publish_at.isSome then input.publish_at else existing.publish_at
    let cover_image_id :=
      if input.cover_image_id.isSome then input.cover_image_id else existing.cover_image_id
    let reading_time := estimate_reading_time content
    let slug := input.slug.getD existing.slug
    let slug_check : Except AppError Unit :=
      if slug != existing.slug then ensure_slug_unique db slug (some id) else .ok ()
    match slug_check with
    | .error e => (.error e, db)
    | .ok _ =>
      let db := { db with articles := update_rows db.articles id fun a =>
          { a with
            title := title
            slug := slug
            short_text := short_text
            content := content
            status := status
            publish_at := publish_at
            cover_image_id := cover_image_id
            reading_time_minutes := reading_time
            updated_at := now } }
      let db := match input.category_ids with
        | some cat_ids => set_article_categories db id cat_ids
        | none => db
      let db := create_revision db id title short_text content user_id now
      match Audit.log_action db faults user_id "update" "article" id
          [("title", title), ("slug", slug), ("status", status)] with
      | (.error e, db) => (.error e, db)
      | (.ok _, db) =>
        match get_article db id with
        | .error e => (.error e, db)
        | .ok a => (.ok a, db)

/-- `trash_article`: existence check, then UPDATE setting
`status = 'trashed'`, `trashed_at = now`, `updated_at = now`. -/
def trash_article (db : DB) (faults : Faults) (id user_id : String) (now : Int) :
    Except AppError Unit × DB :=
  match get_article db id with
  | .error e => (.error e, db)
  | .ok _ =>
    let db := { db with articles := update_rows db.articles id fun a =>
        { a with status := "trashed", trashed_at := some now, updated_at := now } }
    match Audit.log_action db faults user_id "trash" "article" id [] with
    | (.error e, db) => (.error e, db)
    | (.ok _, db) => (.ok (), db)

/-- `restore_article`: rejected with `BadRequest` unless the current
status is `trashed`; on success sets `status = 'draft'` and clears
`trashed_at`. -/
def restore_article (db : DB) (faults : Faults) (id user_id : String) (now : Int) :
    Except AppError Article × DB :=
  match get_article db id with
  | .error e => (.error e, db)
  | .ok existing =>
    if existing.status != "trashed" then
      (.error (.BadRequest "Only trashed articles can be restored"), db)
    else
      let db := { db with articles := update_rows db.articles id fun a =>
          { a with status := "draft", trashed_at := none, updated_at := now } }
      match Audit.log_action db faults user_id "restore" "article" id [] with
      | (.error e, db) => (.error e, db)
      | (.ok _, db) =>
        match get_article db id with
        | .error e => (.error e, db)
        | .ok a => (.ok a, db)

/-- `publish_article`: existence check, then UPDATE setting
`status = 'published'` and bumping `updated_at` (nothing else). -/
def publish_article (db : DB) (faults : Faults) (id user_id : String) (now : Int) :
    Except AppError Article × DB :=
  match get_article db id with
  | .error e => (.error e, db)
  | .ok _ =>
    let db := { db with articles := update_rows db.articles id fun a =>
        { a with status := "published", updated_at := now } }
    match Audit.log_action db faults user_id "publish" "article" id [] with
    | (.error e, db) => (.error e, db)
    | (.ok _, db) =>
      match get_article db id with
      | .error e => (.error e, db)
      | .ok a => (.ok a, db)

/-- `restore_revision` (articles): look the revision up scoped to its
parent (`WHERE id = ? AND article_id = ?`), `NotFound` when absent,
then delegate to `update_article` with the captured fields. -/
def restore_revision (db : DB) (faults : Faults) (article_id revision_id user_id : String)
    (now : Int) : Except AppError Article × DB :=
  match db.article_revisions.find? fun r => r.id == revision_id && r.article_id == article_id with
  | none => (.error .NotFound, db)
  | some revision =>
    let input : UpdateArticle :=
      { title := some revision.title
        short_text := some revision.short_text
        content := some revision.content
        slug := none
        status := none
        publish_at := none
        category_ids := none
        cover_image_id := none }
    update_article db faults article_id input user_id now

end Articles

-- ── services/pages.rs ────────────────────────────────────────────────

namespace Pages

/-- `SELECT ... FROM pages WHERE id = ?` (point lookup). -/
def find_row (l : List Page) (id : String) : Option Page :=
  l.find? fun x => x.id == id

/-- `UPDATE pages SET ... WHERE id = ?`: rewrites the matching rows
with `g`, leaves the rest alone. -/
def update_rows (l : List Page) (id : String) (g : Page → Page) : List Page :=
  l.map fun x => if x.id == id then g x else x

/-- `get_page`: point lookup by primary key, `NotFound` if absent. -/
def get_page (db : DB) (id : String) : Except AppError Page :=
  match find_row db.pages id with
  | some p => .ok p
  | none => .error .NotFound

/-- `ensure_slug_unique` from `services/pages.rs`: `SELECT id FROM pages
WHERE slug = ? LIMIT 1`, then the three-way match on
(existing id, exclude id). -/
def ensure_slug_unique (db : DB) (slug : String) (exclude_id : Option String) :
    Except AppError Unit :=
  let existing_id := (db.pages.find? fun p => p.slug == slug).map fun p => p.id
  match existing_id, exclude_id with
  | none, _ => .ok ()
  | some found_id, some excluded =>
    if found_id == excluded then .ok ()
    else .error (.Conflict ("A page with slug \x27" ++ slug ++ "\x27 already exists"))
  | some _, none =>
    .error (.Conflict ("A page with slug \x27" ++ slug ++ "\x27 already exists"))

/-- `set_page_categories`: delete-then-insert on the join table. -/
def set_page_categories (db : DB) (page_id : String) (category_ids : List String) : DB :=
  let db := { db with page_categories :=
      db.page_categories.filter fun pc => pc.1 != page_id }
  { db with page_categories :=
      db.page_categories ++ category_ids.map fun cid => (page_id, cid) }

/-- `create_revision` (pages): INSERT into `page_revisions`;
`created_at` takes the schema default `datetime('now')`. -/
def create_revision (db : DB) (page_id title content author_id : String) (now : Int) : DB :=
  let (rid, db) := fresh_uuid db
  { db with page_revisions :=
      db.page_revisions ++ [⟨rid, page_id, title, content, author_id, now⟩] }

/-- `create_page`: slug derivation, uniqueness check, INSERT, optional
category assignment, seed revision, audit event, re-fetch. -/
def create_page (db : DB) (faults : Faults) (input : CreatePage) (author_id : String)
    (now : Int) : Except AppError Page × DB :=
  let slug := input.slug.getD (slugify input.title)
  match ensure_slug_unique db slug none with
  | .error e => (.error e, db)
  | .ok _ =>
    let (id, db) := fresh_uuid db
    let content := input.content.getD ""
    let status := input.status.getD "draft"
    let row : Page :=
      { id := id
        title := input.title
        slug := slug
        content := content
        status := status
        publish_at := input.publish_at
        author_id := author_id
        created_at := now
        updated_at := now
        trashed_at := none }
    let db := { db with pages := db.pages ++ [row] }
    let db := match input.category_ids with
      | some cat_ids => set_page_categories db id cat_ids
      | none => db
    let db := create_revision db id input.title content author_id now
    match Audit.log_action db faults author_id "create" "page" id
        [("title", input.title), ("slug", slug), ("status", status)] with
    | (.error e, db) => (.error e, db)
    | (.ok _, db) =>
      match get_page db id with
      | .error e => (.error e, db)
      | .ok p => (.ok p, db)

/-- `update_page`: merge supplied fields over the existing row, re-check
the slug only when it changed, UPDATE the row, optional category
replacement, append a revision, audit event, re-fetch. -/
def update_page (db : DB) (faults : Faults) (id : String) (input : UpdatePage)
    (user_id : String) (now : Int) : Except AppError Page × DB :=
  match get_page db id with
  | .error e => (.error e, db)
  | .ok existing =>
    let title := input.title.getD existing.title
    let content := input.content.getD existing.content
    let status := input.status.getD existing.status
    let publish_at := if input.publish_at.isSome then input.publish_at else existing.publish_at
    let slug := input.slug.getD existing.slug
    let slug_check : Except AppError Unit :=
      if slug != existing.slug then ensure_slug_unique db slug (some id) else .ok ()
    match slug_check with
    | .error e => (.error e, db)
    | .ok _ =>
      let db := { db with pages := update_rows db.pages id fun p =>
          { p with
            title := title
            slug := slug
            content := content
            status := status
            publish_at := publish_at
            updated_at := now } }
      let db := match input.category_ids with
        | some cat_ids => set_page_categories db id cat_ids
        | none => db
      let db := create_revision db id title content user_id now
      match Audit.log_action db faults user_id "update" "page" id
          [("title", title), ("slug", slug), ("status", status)] with
      | (.error e, db) => (.error e, db)
      | (.ok _, db) =>
        match get_page db id with
        | .error e => (.error e, db)
        | .ok p => (.ok p, db)

/-- `trash_page`: existence check, then UPDATE setting
`status = 'trashed'`, `trashed_at = now`, `updated_at = now`. -/
def trash_page (db : DB) (faults : Faults) (id user_id : String) (now : Int) :
    Except AppError Unit × DB :=
  match get_page db id with
  | .error e => (.error e, db)
  | .ok _ =>
    let db := { db with pages := update_rows db.pages id fun p =>
        { p with status := "trashed", trashed_at := some now, updated_at := now } }
    match Audit.log_action db faults user_id "trash" "page" id [] with
    | (.error e, db) => (.error e, db)
    | (.ok _, db) => (.ok (), db)

/-- `restore_page`: rejected with `BadRequest` unless the current status
is `trashed`; on success sets `status = 'draft'` and clears
`trashed_at`. -/
def restore_page (db : DB) (faults : Faults) (id user_id : String) (now : Int) :
    Except AppError Page × DB :=
  match get_page db id with
  | .error e => (.error e, db)
  | .ok existing =>
    if existing.status != "trashed" then
      (.error (.BadRequest "Only trashed pages can be restored"), db)
    else
      let db := { db with pages := update_rows db.pages id fun p =>
          { p with status := "draft", trashed_at := none, updated_at := now } }
      match Audit.log_action db faults user_id "restore" "page" id [] with
      | (.error e, db) => (.error e, db)
      | (.ok _, db) =>
        match get_page db id with
        | .error e => (.error e, db)
        | .ok p => (.ok p, db)

/-- `publish_page`: existence check, then UPDATE setting
`status = 'published'` and bumping `updated_at` (nothing else). -/
def publish_page (db : DB) (faults : Faults) (id user_id : String) (now : Int) :
    Except AppError Page × DB :=
  match get_page db id with
  | .error e => (.error e, db)
  | .ok _ =>
    let db := { db with pages := update_rows db.pages id fun p =>
        { p with status := "published", updated_at := now } }
    match Audit.log_action db faults user_id "publish" "page" id [] with
    | (.error e, db) => (.error e, db)
    | (.ok _, db) =>
      match get_page db id with
      | .error e => (.error e, db)
      | .ok p => (.ok p, db)

/-- `restore_revision` (pages): look the revision up scoped to its
parent (`WHERE id = ? AND page_id = ?`), `NotFound` when absent, then
delegate to `update_page` with the captured fields. -/
def restore_revision (db : DB) (faults : Faults) (page_id revision_id user_id : String)
    (now : Int) : Except AppError Page × DB :=
  match db.page_revisions.find? fun r => r.id == revision_id && r.page_id == page_id with
  | none => (.error .NotFound, db)
  | some revision =>
    let input : UpdatePage :=
      { title := some revision.title
        content := some revision.content
        slug := none
        status := none
        publish_at := none
        category_ids := none }
    update_page db faults page_id input user_id now

end Pages

-- ── tasks.rs ─────────────────────────────────────────────────────────

namespace Tasks

/-- Statement 1 of `run_scheduled_tasks`: `UPDATE pages SET status =
'published', updated_at = datetime('now') WHERE status = 'scheduled'
AND publish_at <= datetime('now')`.  A NULL `publish_at` fails the SQL
comparison, so such rows are untouched. -/
def promote_scheduled_pages (db : DB) (now : Int) : DB :=
  { db with pages := db.pages.map fun p =>
      if p.status == "scheduled" && (match p.publish_at with
        | some t => decide (t ≤ now)
        | none => false) then
        { p with status := "published", updated_at := now }
      else p }

/-- Statement 2 of `run_scheduled_tasks`: the same promotion for
`articles`. -/
def promote_scheduled_articles (db : DB) (now : Int) : DB :=
  { db with articles := db.articles.map fun a =>
      if a.status == "scheduled" && (match a.publish_at with
        | some t => decide (t ≤ now)
        | none => false) then
        { a with status := "published", updated_at := now }
      else a }

/-- Statement 3 of `run_scheduled_tasks`: `DELETE FROM pages WHERE
status = 'trashed' AND trashed_at < datetime('now', '-30 days')`.
A NULL `trashed_at` fails the SQL comparison, so such rows are kept. -/
def sweep_trashed_pages (db : DB) (now : Int) : DB :=
  { db with pages := db.pages.filter fun p =>
      !(p.status == "trashed" && (match p.trashed_at with
        | some t => decide (t < now - days30)
        | none => false)) }

/-- Statement 4 of `run_scheduled_tasks`: the same sweep for
`articles`. -/
def sweep_trashed_articles (db : DB) (now : Int) : DB :=
  { db with articles := db.articles.filter fun a =>
      !(a.status == "trashed" && (match a.trashed_at with
        | some t => decide (t < now - days30)
        | none => false)) }

/-- Statement 5 of `run_scheduled_tasks`: `DELETE FROM sessions WHERE
expires_at < datetime('now')`. -/
def sweep_expired_sessions (db : DB) (now : Int) : DB :=
  { db with sessions := db.sessions.filter fun s => !(decide (s.expires_at < now)) }

/-- `run_scheduled_tasks` from `tasks.rs`.  The Rust function runs the
five statements in order, each followed by `?`: the first failing
statement makes the function return its error immediately, keeping the
effects of the statements already executed.  The error type is
`sqlx::Error`, modelled as the rendered message. -/
def run_scheduled_tasks (db : DB) (faults : Faults) (now : Int) : Except String Unit × DB :=
  if faults.promote_pages then (.error "promote pages failed", db) else
  let db := promote_scheduled_pages db now
  if faults.promote_articles then (.error "promote articles failed", db) else
  let db := promote_scheduled_articles db now
  if faults.sweep_pages then (.error "sweep pages failed", db) else
  let db := sweep_trashed_pages db now
  if faults.sweep_articles then (.error "sweep articles failed", db) else
  let db := sweep_trashed_articles db now
  if faults.sweep_sessions then (.error "sweep sessions failed", db) else
  let db := sweep_expired_sessions db now
  (.ok (), db)

end Tasks

-- ── api/trash.rs ─────────────────────────────────────────────────────

namespace TrashApi

/-- The DELETE predicate of `POST /api/admin/trash/empty` for pages:
`status = 'trashed' AND trashed_at < datetime('now', '-30 days')`. -/
def page_expired (p : Page) (now : Int) : Bool :=
  p.status == "trashed" && (match p.trashed_at with
    | some t => decide (t < now - days30)
    | none => false)

/-- The DELETE predicate of `POST /api/admin/trash/empty` for articles. -/
def article_expired (a : Article) (now : Int) : Bool :=
  a.status == "trashed" && (match a.trashed_at with
    | some t => decide (t < now - days30)
    | none => false)

/-- The `empty` handler from `api/trash.rs`: two DELETE statements, and
the response reports how many rows each one removed
(`rows_affected`). -/
def empty (db : DB) (now : Int) : (Nat × Nat) × DB :=
  let pages_deleted := (db.pages.filter fun p => page_expired p now).length
  let db := { db with pages := db.pages.filter fun p => !(page_expired p now) }
  let articles_deleted := (db.articles.filter fun a => article_expired a now).length
  let db := { db with articles := db.articles.filter fun a => !(article_expired a now) }
  ((pages_deleted, articles_deleted), db)

end TrashApi

-- ── Characterisation lemmas ──────────────────────────────────────────

/-- An `UPDATE ... WHERE id = ?` rewrite keeps the row found by a
point lookup in place: finding by id after the rewrite returns the
rewritten row, provided the rewrite preserves ids. -/
theorem article_find_row_update_rows (l : List Article) (id : String) (g : Article → Article)
    (hg : ∀ x : Article, (g x).id = x.id) (a : Article)
    (h : Articles.find_row l id = some a) :
    Articles.find_row (Articles.update_rows l id g) id = some (g a) := by
  unfold Articles.find_row at h
  unfold Articles.find_row Articles.update_rows
  have hpa : (a.id == id) = true := @List.find?_some _ (fun x => x.id == id) a l h
  rw [List.find?_map]
  have hcomp : ((fun x : Article => x.id == id) ∘ fun x => if x.id == id then g x else x) =
      fun x : Article => x.id == id := by
    funext x
    by_cases hx : x.id = id <;> simp [hx, hg]
  rw [hcomp, h]
  simp only [beq_iff_eq] at hpa
  simp [hpa]

/-- Page version of `article_find_row_update_rows`. -/
theorem page_find_row_update_rows (l : List Page) (id : String) (g : Page → Page)
    (hg : ∀ x : Page, (g x).id = x.id) (a : Page)
    (h : Pages.find_row l id = some a) :
    Pages.find_row (Pages.update_rows l id g) id = some (g a) := by
  unfold Pages.find_row at h
  unfold Pages.find_row Pages.update_rows
  have hpa : (a.id == id) = true := @List.find?_some _ (fun x => x.id == id) a l h
  rw [List.find?_map]
  have hcomp : ((fun x : Page => x.id == id) ∘ fun x => if x.id == id then g x else x) =
      fun x : Page => x.id == id := by
    funext x
    by_cases hx : x.id = id <;> simp [hx, hg]
  rw [hcomp, h]
  simp only [beq_iff_eq] at hpa
  simp [hpa]

/-- `get_article` succeeds exactly when the point lookup finds a row. -/
theorem get_article_eq_ok (db : DB) (id : String) (a : Article) :
    Articles.get_article db id = .ok a ↔ Articles.find_row db.articles id = some a := by
  unfold Articles.get_article
  cases h : Articles.find_row db.articles id <;> simp [h]

/-- `get_page` succeeds exactly when the point lookup finds a row. -/
theorem get_page_eq_ok (db : DB) (id : String) (p : Page) :
    Pages.get_page db id = .ok p ↔ Pages.find_row db.pages id = some p := by
  unfold Pages.get_page
  cases h : Pages.find_row db.pages id <;> simp [h]

/-- Full behaviour of `trash_article` on an existing article when the
audit INSERT succeeds. -/
theorem trash_article_ok (db : DB) (faults : Faults) (id user_id : String) (now : Int)
    (a : Article) (ha : Articles.find_row db.articles id = some a)
    (hf : faults.audit_insert = false) :
    Articles.trash_article db faults id user_id now =
      (.ok (),
       { db with
          articles := Articles.update_rows db.articles id fun x =>
            { x with status := "trashed", trashed_at := some now, updated_at := now }
          audit_log := db.audit_log ++
            [⟨"uuid-" ++ toString db.uuid_counter, user_id, "trash", "article", id, []⟩]
          uuid_counter := db.uuid_counter + 1 }) := by
  unfold Articles.trash_article
  rw [(get_article_eq_ok db id a).mpr ha]
  simp [Audit.log_action, hf, fresh_uuid]

/-- Full behaviour of `publish_article` on an existing article when the
audit INSERT succeeds: only `status` and `updated_at` change. -/
theorem publish_article_ok (db : DB) (faults : Faults) (id user_id : String) (now : Int)
    (a : Article) (ha : Articles.find_row db.articles id = some a)
    (hf : faults.audit_insert = false) :
    Articles.publish_article db faults id user_id now =
      (.ok { a with status := "published", updated_at := now },
       { db with
          articles := Articles.update_rows db.articles id fun x =>
            { x with status := "published", updated_at := now }
          audit_log := db.audit_log ++
            [⟨"uuid-" ++ toString db.uuid_counter, user_id, "publish", "article", id, []⟩]
          uuid_counter := db.uuid_counter + 1 }) := by
  have hfind := article_find_row_update_rows db.articles id
    (fun x => { x with status := "published", updated_at := now }) (fun x => rfl) a ha
  unfold Articles.publish_article
  rw [(get_article_eq_ok db id a).mpr ha]
  simp [Audit.log_action, hf, fresh_uuid, Articles.get_article, hfind]

/-- `restore_article` on an article that is not trashed: rejected, and
the state is returned exactly as it was. -/
theorem restore_article_not_trashed (db : DB) (faults : Faults) (id user_id : String)
    (now : Int) (a : Article) (ha : Articles.find_row db.articles id = some a)
    (hs : a.status ≠ "trashed") :
    Articles.restore_article db faults id user_id now =
      (.error (.BadRequest "Only trashed articles can be restored"), db) := by
  unfold Articles.restore_article
  rw [(get_article_eq_ok db id a).mpr ha]
  simp [hs]

/-- Full behaviour of `restore_article` on a trashed article when the
audit INSERT succeeds: status becomes `draft`, `trashed_at` cleared. -/
theorem restore_article_ok (db : DB) (faults : Faults) (id user_id : String) (now : Int)
    (a : Article) (ha : Articles.find_row db.articles id = some a)
    (hs : a.status = "trashed") (hf : faults.audit_insert = false) :
    Articles.restore_article db faults id user_id now =
      (.ok { a with status := "draft", trashed_at := none, updated_at := now },
       { db with
          articles := Articles.update_rows db.articles id fun x =>
            { x with status := "draft", trashed_at := none, updated_at := now }
          audit_log := db.audit_log ++
            [⟨"uuid-" ++ toString db.uuid_counter, user_id, "restore", "article", id, []⟩]
          uuid_counter := db.uuid_counter + 1 }) := by
  have hfind := article_find_row_update_rows db.articles id
    (fun x => { x with status := "draft", trashed_at := none, updated_at := now })
    (fun x => rfl) a ha
  unfold Articles.restore_article
  rw [(get_article_eq_ok db id a).mpr ha]
  simp [hs, Audit.log_action, hf, fresh_uuid, Articles.get_article, hfind]

/-- Full behaviour of `update_article` on an existing article when the
slug check passes and the audit INSERT succeeds: PATCH-merge of the
supplied fields, one appended revision with the merged values, bumped
`updated_at`. -/
theorem update_article_ok (db : DB) (faults : Faults) (id : String) (input : UpdateArticle)
    (user_id : String) (now : Int) (a : Article)
    (ha : Articles.find_row db.articles id = some a)
    (hf : faults.audit_insert = false)
    (hs : (if input.slug.getD a.slug != a.slug
           then Articles.ensure_slug_unique db (input.slug.getD a.slug) (some id)
           else Except.ok ()) = Except.ok ()) :
    Articles.update_article db faults id input user_id now =
      (.ok { a with
          title := input.title.getD a.title
          slug := input.slug.getD a.slug
          short_text := input.short_text.getD a.short_text
          content := input.content.getD a.content
          status := input.status.getD a.status
          publish_at := if input.publish_at.isSome then input.publish_at else a.publish_at
          cover_image_id :=
            if input.cover_image_id.isSome then input.cover_image_id else a.cover_image_id
          reading_time_minutes := estimate_reading_time (input.content.getD a.content)
          updated_at := now },
       { db with
          articles := Articles.update_rows db.articles id fun x =>
            { x with
              title := input.title.getD a.title
              slug := input.slug.getD a.slug
              short_text := input.short_text.getD a.short_text
              content := input.content.getD a.content
              status := input.status.getD a.status
              publish_at := if input.publish_at.isSome then input.publish_at else a.publish_at
              cover_image_id :=
                if input.cover_image_id.isSome then input.cover_image_id else a.cover_image_id
              reading_time_minutes := estimate_reading_time (input.content.getD a.content)
              updated_at := now }
          article_categories := match input.category_ids with
            | some cat_ids => (db.article_categories.filter fun pc => pc.1 != id) ++
                cat_ids.map fun cid => (id, cid)
            | none => db.article_categories
          article_revisions := db.article_revisions ++
            [⟨"uuid-" ++ toString db.uuid_counter, id, input.title.getD a.title,
              input.short_text.getD a.short_text, input.content.getD a.content, user_id, now⟩]
          audit_log := db.audit_log ++
            [⟨"uuid-" ++ toString (db.uuid_counter + 1), user_id, "update", "article", id,
              [("title", input.title.getD a.title), ("slug", input.slug.getD a.slug),
               ("status", input.status.getD a.status)]⟩]
          uuid_counter := db.uuid_counter + 1 + 1 }) := by
  have hfind := article_find_row_update_rows db.articles id
    (fun x => { x with
      title := input.title.getD a.title
      slug := input.slug.getD a.slug
      short_text := input.short_text.getD a.short_text
      content := input.content.getD a.content
      status := input.status.getD a.status
      publish_at := if input.publish_at.isSome then input.publish_at else a.publish_at
      cover_image_id :=
        if input.cover_image_id.isSome then input.cover_image_id else a.cover_image_id
      reading_time_minutes := estimate_reading_time (input.content.getD a.content)
      updated_at := now }) (fun x => rfl) a ha
  unfold Articles.update_article
  rw [(get_article_eq_ok db id a).mpr ha]
  by_cases hslug : input.slug.getD a.slug = a.slug
  · simp only [hslug] at hfind
    cases hc : input.category_ids with
    | none =>
      simp [hslug, hc, Audit.log_action, hf, fresh_uuid, Articles.create_revision,
        Articles.get_article, hfind]
    | some cat_ids =>
      simp [hslug, hc, Audit.log_action, hf, fresh_uuid, Articles.create_revision,
        Articles.set_article_categories, Articles.get_article, hfind]
  · simp only [bne_iff_ne, ne_eq, hslug, not_false_eq_true, if_true] at hs
    cases hc : input.category_ids with
    | none =>
      simp [hslug, hs, hc, Audit.log_action, hf, fresh_uuid, Articles.create_revision,
        Articles.get_article, hfind]
    | some cat_ids =>
      simp [hslug, hs, hc, Audit.log_action, hf, fresh_uuid, Articles.create_revision,
        Articles.set_article_categories, Articles.get_article, hfind]

/-- `update_article` when the (changed) slug collides: the error from
the slug check is returned and the state is untouched. -/
theorem update_article_conflict (db : DB) (faults : Faults) (id : String)
    (input : UpdateArticle) (user_id : String) (now : Int) (a : Article) (e : AppError)
    (ha : Articles.find_row db.articles id = some a)
    (hne : input.slug.getD a.slug ≠ a.slug)
    (he : Articles.ensure_slug_unique db (input.slug.getD a.slug) (some id) = .error e) :
    Articles.update_article db faults id input user_id now = (.error e, db) := by
  unfold Articles.update_article
  rw [(get_article_eq_ok db id a).mpr ha]
  simp [hne, he]

/-- `create_article` when the candidate slug is taken: the `Conflict`
error from the slug check is returned and the state is untouched. -/
theorem create_article_conflict (db : DB) (faults : Faults) (input : CreateArticle)
    (author_id : String) (now : Int) (e : AppError)
    (he : Articles.ensure_slug_unique db (input.slug.getD (slugify input.title)) none =
      .error e) :
    Articles.create_article db faults input author_id now = (.error e, db) := by
  simp [Articles.create_article, he]

/-- Appending a row whose id is not yet present makes the point lookup
find exactly that row. -/
theorem article_find_row_append_fresh (l : List Article) (row : Article)
    (hfresh : Articles.find_row l row.id = none) :
    Articles.find_row (l ++ [row]) row.id = some row := by
  unfold Articles.find_row at hfresh ⊢
  rw [List.find?_append, hfresh]
  simp

/-- Page version of `article_find_row_append_fresh`. -/
theorem page_find_row_append_fresh (l : List Page) (row : Page)
    (hfresh : Pages.find_row l row.id = none) :
    Pages.find_row (l ++ [row]) row.id = some row := by
  unfold Pages.find_row at hfresh ⊢
  rw [List.find?_append, hfresh]
  simp

/-- Full behaviour of `create_article` when the candidate slug is free,
the audit INSERT succeeds, and the generated id is fresh: the row is
inserted exactly as supplied (slug taken verbatim), with one seed
revision. -/
theorem create_article_ok (db : DB) (faults : Faults) (input : CreateArticle)
    (author_id : String) (now : Int)
    (hok : Articles.ensure_slug_unique db (input.slug.getD (slugify input.title)) none =
      .ok ())
    (hf : faults.audit_insert = false)
    (hfresh : Articles.find_row db.articles ("uuid-" ++ toString db.uuid_counter) = none) :
    Articles.create_article db faults input author_id now =
      (.ok { id := "uuid-" ++ toString db.uuid_counter
             title := input.title
             slug := input.slug.getD (slugify input.title)
             short_text := input.short_text.getD ""
             content := input.content.getD ""
             status := input.status.getD "draft"
             publish_at := input.publish_at
             author_id := author_id
             created_at := now
             updated_at := now
             trashed_at := none
             cover_image_id := input.cover_image_id
             reading_time_minutes := estimate_reading_time (input.content.getD "") },
       { db with
          articles := db.articles ++
            [{ id := "uuid-" ++ toString db.uuid_counter
               title := input.title
               slug := input.slug.getD (slugify input.title)
               short_text := input.short_text.getD ""
               content := input.content.getD ""
               status := input.status.getD "draft"
               publish_at := input.publish_at
               author_id := author_id
               created_at := now
               updated_at := now
               trashed_at := none
               cover_image_id := input.cover_image_id
               reading_time_minutes := estimate_reading_time (input.content.getD "") }]
          article_categories := match input.category_ids with
            | some cat_ids =>
              (db.article_categories.filter
                fun pc => pc.1 != "uuid-" ++ toString db.uuid_counter) ++
                cat_ids.map fun cid => ("uuid-" ++ toString db.uuid_counter, cid)
            | none => db.article_categories
          article_revisions := db.article_revisions ++
            [⟨"uuid-" ++ toString (db.uuid_counter + 1), "uuid-" ++ toString db.uuid_counter,
              input.title, input.short_text.getD "", input.content.getD "", author_id, now⟩]
          audit_log := db.audit_log ++
            [⟨"uuid-" ++ toString (db.uuid_counter + 1 + 1), author_id, "create", "article",
              "uuid-" ++ toString db.uuid_counter,
              [("title", input.title), ("slug", input.slug.getD (slugify input.title)),
               ("status", input.status.getD "draft")]⟩]
          uuid_counter := db.uuid_counter + 1 + 1 + 1 }) := by
  have hfind := article_find_row_append_fresh db.articles
    { id := "uuid-" ++ toString db.uuid_counter
      title := input.title
      slug := input.slug.getD (slugify input.title)
      short_text := input.short_text.getD ""
      content := input.content.getD ""
      status := input.status.getD "draft"
      publish_at := input.publish_at
      author_id := author_id
      created_at := now
      updated_at := now
      trashed_at := none
      cover_image_id := input.cover_image_id
      reading_time_minutes := estimate_reading_time (input.content.getD "") } hfresh
  unfold Articles.create_article
  cases hc : input.category_ids with
  | none =>
    simp [hok, hc, Audit.log_action, hf, fresh_uuid, Articles.create_revision,
      Articles.get_article, hfind]
  | some cat_ids =>
    simp [hok, hc, Audit.log_action, hf, fresh_uuid, Articles.create_revision,
      Articles.set_article_categories, Articles.get_article, hfind]

/-- `trash_article` when the audit INSERT fails: the row update has
already been applied, but the audit error is returned. -/
theorem trash_article_audit_fault (db : DB) (faults : Faults) (id user_id : String)
    (now : Int) (a : Article) (ha : Articles.find_row db.articles id = some a)
    (hf : faults.audit_insert = true) :
    Articles.trash_article db faults id user_id now =
      (.error (.Database "audit log insert failed"),
       { db with articles := Articles.update_rows db.articles id fun x =>
            { x with status := "trashed", trashed_at := some now, updated_at := now } }) := by
  unfold Articles.trash_article
  rw [(get_article_eq_ok db id a).mpr ha]
  simp [Audit.log_action, hf]

/-- `publish_article` when the audit INSERT fails: status already set to
`published`, but the audit error is returned. -/
theorem publish_article_audit_fault (db : DB) (faults : Faults) (id user_id : String)
    (now : Int) (a : Article) (ha : Articles.find_row db.articles id = some a)
    (hf : faults.audit_insert = true) :
    Articles.publish_article db faults id user_id now =
      (.error (.Database "audit log insert failed"),
       { db with articles := Articles.update_rows db.articles id fun x =>
            { x with status := "published", updated_at := now } }) := by
  unfold Articles.publish_article
  rw [(get_article_eq_ok db id a).mpr ha]
  simp [Audit.log_action, hf]

/-- `restore_article` on a trashed article when the audit INSERT fails:
the restore has already been applied, but the audit error is
returned. -/
theorem restore_article_audit_fault (db : DB) (faults : Faults) (id user_id : String)
    (now : Int) (a : Article) (ha : Articles.find_row db.articles id = some a)
    (hs : a.status = "trashed") (hf : faults.audit_insert = true) :
    Articles.restore_article db faults id user_id now =
      (.error (.Database "audit log insert failed"),
       { db with articles := Articles.update_rows db.articles id fun x =>
            { x with status := "draft", trashed_at := none, updated_at := now } }) := by
  unfold Articles.restore_article
  rw [(get_article_eq_ok db id a).mpr ha]
  simp [hs, Audit.log_action, hf]

/-- `update_article` when the audit INSERT fails: the merged row and the
new revision are already persisted, but the audit error is returned. -/
theorem update_article_audit_fault (db : DB) (faults : Faults) (id : String)
    (input : UpdateArticle) (user_id : String) (now : Int) (a : Article)
    (ha : Articles.find_row db.articles id = some a)
    (hf : faults.audit_insert = true)
    (hs : (if input.slug.getD a.slug != a.slug
           then Articles.ensure_slug_unique db (input.slug.getD a.slug) (some id)
           else Except.ok ()) = Except.ok ()) :
    Articles.update_article db faults id input user_id now =
      (.error (.Database "audit log insert failed"),
       { db with
          articles := Articles.update_rows db.articles id fun x =>
            { x with
              title := input.title.getD a.title
              slug := input.slug.getD a.slug
              short_text := input.short_text.getD a.short_text
              content := input.content.getD a.content
              status := input.status.getD a.status
              publish_at := if input.publish_at.isSome then input.publish_at else a.publish_at
              cover_image_id :=
                if input.cover_image_id.isSome then input.cover_image_id else a.cover_image_id
              reading_time_minutes := estimate_reading_time (input.content.getD a.content)
              updated_at := now }
          article_categories := match input.category_ids with
            | some cat_ids => (db.article_categories.filter fun pc => pc.1 != id) ++
                cat_ids.map fun cid => (id, cid)
            | none => db.article_categories
          article_revisions := db.article_revisions ++
            [⟨"uuid-" ++ toString db.uuid_counter, id, input.title.getD a.title,
              input.short_text.getD a.short_text, input.content.getD a.content, user_id, now⟩]
          uuid_counter := db.uuid_counter + 1 }) := by
  unfold Articles.update_article
  rw [(get_article_eq_ok db id a).mpr ha]
  by_cases hslug : input.slug.getD a.slug = a.slug
  · cases hc : input.category_ids with
    | none =>
      simp [hslug, hc, Audit.log_action, hf, fresh_uuid, Articles.create_revision]
    | some cat_ids =>
      simp [hslug, hc, Audit.log_action, hf, fresh_uuid, Articles.create_revision,
        Articles.set_article_categories]
  · simp only [bne_iff_ne, ne_eq, hslug, not_false_eq_true, if_true] at hs
    cases hc : input.category_ids with
    | none =>
      simp [hslug, hs, hc, Audit.log_action, hf, fresh_uuid, Articles.create_revision]
    | some cat_ids =>
      simp [hslug, hs, hc, Audit.log_action, hf, fresh_uuid, Articles.create_revision,
        Articles.set_article_categories]

/-- `create_article` when the slug is free but the audit INSERT fails:
row and seed revision already inserted, audit error returned. -/
theorem create_article_audit_fault (db : DB) (faults : Faults) (input : CreateArticle)
    (author_id : String) (now : Int)
    (hok : Articles.ensure_slug_unique db (input.slug.getD (slugify input.title)) none =
      .ok ())
    (hf : faults.audit_insert = true) :
    Articles.create_article db faults input author_id now =
      (.error (.Database "audit log insert failed"),
       { db with
          articles := db.articles ++
            [{ id := "uuid-" ++ toString db.uuid_counter
               title := input.title
               slug := input.slug.getD (slugify input.title)
               short_text := input.short_text.getD ""
               content := input.content.getD ""
               status := input.status.getD "draft"
               publish_at := input.publish_at
               author_id := author_id
               created_at := now
               updated_at := now
               trashed_at := none
               cover_image_id := input.cover_image_id
               reading_time_minutes := estimate_reading_time (input.content.getD "") }]
          article_categories := match input.category_ids with
            | some cat_ids =>
              (db.article_categories.filter
                fun pc => pc.1 != "uuid-" ++ toString db.uuid_counter) ++
                cat_ids.map fun cid => ("uuid-" ++ toString db.uuid_counter, cid)
            | none => db.article_categories
          article_revisions := db.article_revisions ++
            [⟨"uuid-" ++ toString (db.uuid_counter + 1), "uuid-" ++ toString db.uuid_counter,
              input.title, input.short_text.getD "", input.content.getD "", author_id, now⟩]
          uuid_counter := db.uuid_counter + 1 + 1 }) := by
  unfold Articles.create_article
  cases hc : input.category_ids with
  | none =>
    simp [hok, hc, Audit.log_action, hf, fresh_uuid, Articles.create_revision]
  | some cat_ids =>
    simp [hok, hc, Audit.log_action, hf, fresh_uuid, Articles.create_revision,
      Articles.set_article_categories]

/-- `restore_revision` when the revision does not belong to the given
article (or does not exist): `NotFound`, state untouched. -/
theorem restore_revision_article_not_found (db : DB) (faults : Faults)
    (article_id revision_id user_id : String) (now : Int)
    (h : (db.article_revisions.find?
       fun r => r.id == revision_id && r.article_id == article_id) = none) :
    Articles.restore_revision db faults article_id revision_id user_id now =
      (.error .NotFound, db) := by
  simp [Articles.restore_revision, h]

/-- `restore_revision` when the revision is found: it is exactly
`update_article` with the captured title/short_text/content as the
partial input and everything else unsupplied. -/
theorem restore_revision_article_found (db : DB) (faults : Faults)
    (article_id revision_id user_id : String) (now : Int) (r : ArticleRevision)
    (h : (db.article_revisions.find?
       fun x => x.id == revision_id && x.article_id == article_id) = some r) :
    Articles.restore_revision db faults article_id revision_id user_id now =
      Articles.update_article db faults article_id
        ⟨some r.title, none, some r.short_text, some r.content, none, none, none, none⟩
        user_id now := by
  simp [Articles.restore_revision, h]

/-- Full behaviour of `trash_page` on an existing page when the audit
INSERT succeeds. -/
theorem trash_page_ok (db : DB) (faults : Faults) (id user_id : String) (now : Int)
    (p : Page) (ha : Pages.find_row db.pages id = some p)
    (hf : faults.audit_insert = false) :
    Pages.trash_page db faults id user_id now =
      (.ok (),
       { db with
          pages := Pages.update_rows db.pages id fun x =>
            { x with status := "trashed", trashed_at := some now, updated_at := now }
          audit_log := db.audit_log ++
            [⟨"uuid-" ++ toString db.uuid_counter, user_id, "trash", "page", id, []⟩]
          uuid_counter := db.uuid_counter + 1 }) := by
  unfold Pages.trash_page
  rw [(get_page_eq_ok db id p).mpr ha]
  simp [Audit.log_action, hf, fresh_uuid]

/-- Full behaviour of `publish_page` on an existing page when the audit
INSERT succeeds: only `status` and `updated_at` change. -/
theorem publish_page_ok (db : DB) (faults : Faults) (id user_id : String) (now : Int)
    (p : Page) (ha : Pages.find_row db.pages id = some p)
    (hf : faults.audit_insert = false) :
    Pages.publish_page db faults id user_id now =
      (.ok { p with status := "published", updated_at := now },
       { db with
          pages := Pages.update_rows db.pages id fun x =>
            { x with status := "published", updated_at := now }
          audit_log := db.audit_log ++
            [⟨"uuid-" ++ toString db.uuid_counter, user_id, "publish", "page", id, []⟩]
          uuid_counter := db.uuid_counter + 1 }) := by
  have hfind := page_find_row_update_rows db.pages id
    (fun x => { x with status := "published", updated_at := now }) (fun x => rfl) p ha
  unfold Pages.publish_page
  rw [(get_page_eq_ok db id p).mpr ha]
  simp [Audit.log_action, hf, fresh_uuid, Pages.get_page, hfind]

/-- `restore_page` on a page that is not trashed: rejected, state
returned exactly as it was. -/
theorem restore_page_not_trashed (db : DB) (faults : Faults) (id user_id : String)
    (now : Int) (p : Page) (ha : Pages.find_row db.pages id = some p)
    (hs : p.status ≠ "trashed") :
    Pages.restore_page db faults id user_id now =
      (.error (.BadRequest "Only trashed pages can be restored"), db) := by
  unfold Pages.restore_page
  rw [(get_page_eq_ok db id p).mpr ha]
  simp [hs]

/-- Full behaviour of `restore_page` on a trashed page when the audit
INSERT succeeds: status becomes `draft`, `trashed_at` cleared. -/
theorem restore_page_ok (db : DB) (faults : Faults) (id user_id : String) (now : Int)
    (p : Page) (ha : Pages.find_row db.pages id = some p)
    (hs : p.status = "trashed") (hf : faults.audit_insert = false) :
    Pages.restore_page db faults id user_id now =
      (.ok { p with status := "draft", trashed_at := none, updated_at := now },
       { db with
          pages := Pages.update_rows db.pages id fun x =>
            { x with status := "draft", trashed_at := none, updated_at := now }
          audit_log := db.audit_log ++
            [⟨"uuid-" ++ toString db.uuid_counter, user_id, "restore", "page", id, []⟩]
          uuid_counter := db.uuid_counter + 1 }) := by
  have hfind := page_find_row_update_rows db.pages id
    (fun x => { x with status := "draft", trashed_at := none, updated_at := now })
    (fun x => rfl) p ha
  unfold Pages.restore_page
  rw [(get_page_eq_ok db id p).mpr ha]
  simp [hs, Audit.log_action, hf, fresh_uuid, Pages.get_page, hfind]

/-- Full behaviour of `update_page` on an existing page when the slug
check passes and the audit INSERT succeeds: PATCH-merge, one appended
revision with the merged values, bumped `updated_at`. -/
theorem update_page_ok (db : DB) (faults : Faults) (id : String) (input : UpdatePage)
    (user_id : String) (now : Int) (p : Page)
    (ha : Pages.find_row db.pages id = some p)
    (hf : faults.audit_insert = false)
    (hs : (if input.slug.getD p.slug != p.slug
           then Pages.ensure_slug_unique db (input.slug.getD p.slug) (some id)
           else Except.ok ()) = Except.ok ()) :
    Pages.update_page db faults id input user_id now =
      (.ok { p with
          title := input.title.getD p.title
          slug := input.slug.getD p.slug
          content := input.content.getD p.content
          status := input.status.getD p.status
          publish_at := if input.publish_at.isSome then input.publish_at else p.publish_at
          updated_at := now },
       { db with
          pages := Pages.update_rows db.pages id fun x =>
            { x with
              title := input.title.getD p.title
              slug := input.slug.getD p.slug
              content := input.content.getD p.content
              status := input.status.getD p.status
              publish_at := if input.publish_at.isSome then input.publish_at else p.publish_at
              updated_at := now }
          page_categories := match input.category_ids with
            | some cat_ids => (db.page_categories.filter fun pc => pc.1 != id) ++
                cat_ids.map fun cid => (id, cid)
            | none => db.page_categories
          page_revisions := db.page_revisions ++
            [⟨"uuid-" ++ toString db.uuid_counter, id, input.title.getD p.title,
              input.content.getD p.content, user_id, now⟩]
          audit_log := db.audit_log ++
            [⟨"uuid-" ++ toString (db.uuid_counter + 1), user_id, "update", "page", id,
              [("title", input.title.getD p.title), ("slug", input.slug.getD p.slug),
               ("status", input.status.getD p.status)]⟩]
          uuid_counter := db.uuid_counter + 1 + 1 }) := by
  have hfind := page_find_row_update_rows db.pages id
    (fun x => { x with
      title := input.title.getD p.title
      slug := input.slug.getD p.slug
      content := input.content.getD p.content
      status := input.status.getD p.status
      publish_at := if input.publish_at.isSome then input.publish_at else p.publish_at
      updated_at := now }) (fun x => rfl) p ha
  unfold Pages.update_page
  rw [(get_page_eq_ok db id p).mpr ha]
  by_cases hslug : input.slug.getD p.slug = p.slug
  · simp only [hslug] at hfind
    cases hc : input.category_ids with
    | none =>
      simp [hslug, hc, Audit.log_action, hf, fresh_uuid, Pages.create_revision,
        Pages.get_page, hfind]
    | some cat_ids =>
      simp [hslug, hc, Audit.log_action, hf, fresh_uuid, Pages.create_revision,
        Pages.set_page_categories, Pages.get_page, hfind]
  · simp only [bne_iff_ne, ne_eq, hslug, not_false_eq_true, if_true] at hs
    cases hc : input.category_ids with
    | none =>
      simp [hslug, hs, hc, Audit.log_action, hf, fresh_uuid, Pages.create_revision,
        Pages.get_page, hfind]
    | some cat_ids =>
      simp [hslug, hs, hc, Audit.log_action, hf, fresh_uuid, Pages.create_revision,
        Pages.set_page_categories, Pages.get_page, hfind]

/-- `update_page` when the (changed) slug collides: the error from the
slug check is returned and the state is untouched. -/
theorem update_page_conflict (db : DB) (faults : Faults) (id : String)
    (input : UpdatePage) (user_id : String) (now : Int) (p : Page) (e : AppError)
    (ha : Pages.find_row db.pages id = some p)
    (hne : input.slug.getD p.slug ≠ p.slug)
    (he : Pages.ensure_slug_unique db (input.slug.getD p.slug) (some id) = .error e) :
    Pages.update_page db faults id input user_id now = (.error e, db) := by
  unfold Pages.update_page
  rw [(get_page_eq_ok db id p).mpr ha]
  simp [hne, he]

/-- `create_page` when the candidate slug is taken: the `Conflict`
error from the slug check is returned and the state is untouched. -/
theorem create_page_conflict (db : DB) (faults : Faults) (input : CreatePage)
    (author_id : String) (now : Int) (e : AppError)
    (he : Pages.ensure_slug_unique db (input.slug.getD (slugify input.title)) none =
      .error e) :
    Pages.create_page db faults input author_id now = (.error e, db) := by
  simp [Pages.create_page, he]

/-- `restore_revision` (pages) when the revision does not belong to the
given page: `NotFound`, state untouched. -/
theorem restore_revision_page_not_found (db : DB) (faults : Faults)
    (page_id revision_id user_id : String) (now : Int)
    (h : (db.page_revisions.find?
       fun r => r.id == revision_id && r.page_id == page_id) = none) :
    Pages.restore_revision db faults page_id revision_id user_id now =
      (.error .NotFound, db) := by
  simp [Pages.restore_revision, h]

/-- `restore_revision` (pages) when the revision is found: it is exactly
`update_page` with the captured title/content as the partial input. -/
theorem restore_revision_page_found (db : DB) (faults : Faults)
    (page_id revision_id user_id : String) (now : Int) (r : PageRevision)
    (h : (db.page_revisions.find?
       fun x => x.id == revision_id && x.page_id == page_id) = some r) :
    Pages.restore_revision db faults page_id revision_id user_id now =
      Pages.update_page db faults page_id
        ⟨some r.title, none, some r.content, none, none, none⟩ user_id now := by
  simp [Pages.restore_revision, h]

/-- Two successive conditional row rewrites on the same id, where the
second overrides the first, collapse to just the second. -/
theorem article_update_rows_override (l : List Article) (id : String)
    (g1 g2 : Article → Article) (hid : ∀ x, (g1 x).id = x.id)
    (h : ∀ x, g2 (g1 x) = g2 x) :
    Articles.update_rows (Articles.update_rows l id g1) id g2 =
      Articles.update_rows l id g2 := by
  unfold Articles.update_rows
  rw [List.map_map]
  apply List.map_congr_left
  intro x _
  by_cases hx : x.id = id
  · simp [Function.comp, hx, hid, h]
  · simp [Function.comp, hx]

/-- Page version of `article_update_rows_override`. -/
theorem page_update_rows_override (l : List Page) (id : String)
    (g1 g2 : Page → Page) (hid : ∀ x, (g1 x).id = x.id)
    (h : ∀ x, g2 (g1 x) = g2 x) :
    Pages.update_rows (Pages.update_rows l id g1) id g2 =
      Pages.update_rows l id g2 := by
  unfold Pages.update_rows
  rw [List.map_map]
  apply List.map_congr_left
  intro x _
  by_cases hx : x.id = id
  · simp [Function.comp, hx, hid, h]
  · simp [Function.comp, hx]

-- ── Concrete sample data for witnesses ──────────────────────────────

/-- A draft article used by the concrete witnesses. -/
def artDraft : Article :=
  { id := "a1"
    title := "Old title"
    slug := "old-title"
    short_text := "st"
    content := "body"
    status := "draft"
    publish_at := none
    author_id := "u1"
    created_at := 0
    updated_at := 0
    trashed_at := none
    cover_image_id := none
    reading_time_minutes := 1 }

/-- A trashed article. -/
def artTrashed : Article :=
  { artDraft with id := "a2", slug := "old-2", status := "trashed", trashed_at := some 1 }

/-- A scheduled article whose publish time has passed at `now = 10`. -/
def artScheduled : Article :=
  { artDraft with id := "a3", slug := "old-3", status := "scheduled", publish_at := some 0 }

/-- An article trashed more than 30 days before `now = 10`. -/
def artExpiredTrash : Article :=
  { artDraft with id := "a4", slug := "old-4", status := "trashed", trashed_at := some (-2600000) }

/-- A draft page. -/
def pageDraft : Page :=
  { id := "p1"
    title := "Page"
    slug := "page"
    content := "pbody"
    status := "draft"
    publish_at := none
    author_id := "u1"
    created_at := 0
    updated_at := 0
    trashed_at := none }

/-- A trashed page. -/
def pageTrashed : Page :=
  { pageDraft with id := "p2", slug := "page-2", status := "trashed", trashed_at := some 1 }

/-- A scheduled page whose publish time has passed at `now = 10`. -/
def pageScheduled : Page :=
  { pageDraft with id := "p3", slug := "page-3", status := "scheduled", publish_at := some 0 }

/-- A revision of `artDraft`. -/
def revA : ArticleRevision := ⟨"r1", "a1", "Rev title", "rst", "rcontent", "u1", 0⟩

/-- A revision of `pageDraft`. -/
def revP : PageRevision := ⟨"rp1", "p1", "PRev", "prcontent", "u1", 0⟩

/-- The main sample database. -/
def dbMain : DB :=
  { articles := [artDraft, artTrashed]
    article_revisions := [revA]
    article_categories := []
    pages := [pageDraft, pageTrashed]
    page_revisions := [revP]
    page_categories := []
    audit_log := []
    sessions := []
    uuid_counter := 0 }

/-- A database exercising the scheduler: a due scheduled article and
page, an expired trashed article, an expired session. -/
def dbSched : DB :=
  { dbMain with
    articles := [artScheduled, artExpiredTrash]
    pages := [pageScheduled]
    sessions := [⟨"s1", "u1", 5⟩] }

/-- Faults: only the audit INSERT fails. -/
def auditFault : Faults := ⟨true, false, false, false, false, false⟩

/-- Faults: only scheduler statement 1 (promote pages) fails. -/
def promotePagesFault : Faults := ⟨false, true, false, false, false, false⟩

/-- Faults: only scheduler statement 3 (sweep trashed pages) fails. -/
def sweepPagesFault : Faults := ⟨false, false, false, true, false, false⟩

-- ── Claim theorems ───────────────────────────────────────────────────

/-- C1: restore on an existing content item (article or page) whose
status is not `trashed` always fails with the invalid-state rejection
(realised in the code as `AppError::BadRequest`), leaving the stored
state entirely unmodified; restore succeeds only from `trashed`, in
which case it sets the status to `draft` and clears `trashed_at`. -/
theorem restore_only_from_trashed :
    ∀ (db : DB) (faults : Faults) (id user_id : String) (now : Int),
      (∀ a : Article, Articles.get_article db id = .ok a → a.status ≠ "trashed" →
        Articles.restore_article db faults id user_id now =
          (.error (.BadRequest "Only trashed articles can be restored"), db)) ∧
      (∀ p : Page, Pages.get_page db id = .ok p → p.status ≠ "trashed" →
        Pages.restore_page db faults id user_id now =
          (.error (.BadRequest "Only trashed pages can be restored"), db)) ∧
      (∀ a : Article, Articles.get_article db id = .ok a → a.status = "trashed" →
        faults.audit_insert = false →
        ∃ db', Articles.restore_article db faults id user_id now =
          (.ok { a with status := "draft", trashed_at := none, updated_at := now }, db') ∧
          Articles.find_row db'.articles id =
            some { a with status := "draft", trashed_at := none, updated_at := now }) ∧
      (∀ p : Page, Pages.get_page db id = .ok p → p.status = "trashed" →
        faults.audit_insert = false →
        ∃ db', Pages.restore_page db faults id user_id now =
          (.ok { p with status := "draft", trashed_at := none, updated_at := now }, db') ∧
          Pages.find_row db'.pages id =
            some { p with status := "draft", trashed_at := none, updated_at := now }) := by
  intro db faults id user_id now
  refine ⟨?_, ?_, ?_, ?_⟩
  · intro a ha hs
    exact restore_article_not_trashed db faults id user_id now a
      ((get_article_eq_ok db id a).mp ha) hs
  · intro p ha hs
    exact restore_page_not_trashed db faults id user_id now p
      ((get_page_eq_ok db id p).mp ha) hs
  · intro a ha hs hf
    have ha2 := (get_article_eq_ok db id a).mp ha
    refine ⟨_, restore_article_ok db faults id user_id now a ha2 hs hf, ?_⟩
    exact article_find_row_update_rows db.articles id
      (fun x => { x with status := "draft", trashed_at := none, updated_at := now })
      (fun x => rfl) a ha2
  · intro p ha hs hf
    have ha2 := (get_page_eq_ok db id p).mp ha
    refine ⟨_, restore_page_ok db faults id user_id now p ha2 hs hf, ?_⟩
    exact page_find_row_update_rows db.pages id
      (fun x => { x with status := "draft", trashed_at := none, updated_at := now })
      (fun x => rfl) p ha2

/-- Concrete witness for C1: restoring the draft article `a1` is
rejected with the state untouched; restoring the trashed article `a2`
succeeds and yields a draft row with `trashed_at` cleared. -/
theorem restore_only_from_trashed_witness :
    Articles.restore_article dbMain noFaults "a1" "u9" 5 =
      (.error (.BadRequest "Only trashed articles can be restored"), dbMain) ∧
    (∃ db', Articles.restore_article dbMain noFaults "a2" "u9" 5 =
      (.ok { artTrashed with status := "draft", trashed_at := none, updated_at := 5 }, db') ∧
      Articles.find_row db'.articles "a2" =
        some { artTrashed with status := "draft", trashed_at := none, updated_at := 5 }) := by
  constructor
  · exact (restore_only_from_trashed dbMain noFaults "a1" "u9" 5).1 artDraft (by decide)
      (by decide)
  · exact (restore_only_from_trashed dbMain noFaults "a2" "u9" 5).2.2.1 artTrashed (by decide)
      (by decide) (by decide)

/-- C2: update applies PATCH semantics on both content types — every
supplied field overwrites, every absent field keeps its prior value —
appends exactly one revision holding the merged title and content, and
bumps `updated_at`; in particular a title-only update leaves content,
status and slug unchanged. -/
theorem update_patch_merge_semantics :
    ∀ (db : DB) (faults : Faults) (id user_id : String) (now : Int),
      faults.audit_insert = false →
      (∀ (input : UpdateArticle) (a : Article),
        Articles.get_article db id = .ok a →
        (if input.slug.getD a.slug != a.slug
         then Articles.ensure_slug_unique db (input.slug.getD a.slug) (some id)
         else Except.ok ()) = Except.ok () →
        ∃ db',
          Articles.update_article db faults id input user_id now =
            (.ok { a with
                title := input.title.getD a.title
                slug := input.slug.getD a.slug
                short_text := input.short_text.getD a.short_text
                content := input.content.getD a.content
                status := input.status.getD a.status
                publish_at := if input.publish_at.isSome then input.publish_at else a.publish_at
                cover_image_id :=
                  if input.cover_image_id.isSome then input.cover_image_id else a.cover_image_id
                reading_time_minutes := estimate_reading_time (input.content.getD a.content)
                updated_at := now }, db') ∧
          db'.article_revisions = db.article_revisions ++
            [⟨"uuid-" ++ toString db.uuid_counter, id, input.title.getD a.title,
              input.short_text.getD a.short_text, input.content.getD a.content,
              user_id, now⟩]) ∧
      (∀ (input : UpdatePage) (p : Page),
        Pages.get_page db id = .ok p →
        (if input.slug.getD p.slug != p.slug
         then Pages.ensure_slug_unique db (input.slug.getD p.slug) (some id)
         else Except.ok ()) = Except.ok () →
        ∃ db',
          Pages.update_page db faults id input user_id now =
            (.ok { p with
                title := input.title.getD p.title
                slug := input.slug.getD p.slug
                content := input.content.getD p.content
                status := input.status.getD p.status
                publish_at := if input.publish_at.isSome then input.publish_at else p.publish_at
                updated_at := now }, db') ∧
          db'.page_revisions = db.page_revisions ++
            [⟨"uuid-" ++ toString db.uuid_counter, id, input.title.getD p.title,
              input.content.getD p.content, user_id, now⟩]) ∧
      (∀ (t : String) (a : Article),
        Articles.get_article db id = .ok a →
        ∃ db',
          Articles.update_article db faults id
              ⟨some t, none, none, none, none, none, none, none⟩ user_id now =
            (.ok { a with
                title := t
                reading_time_minutes := estimate_reading_time a.content
                updated_at := now }, db') ∧
          db'.article_revisions = db.article_revisions ++
            [⟨"uuid-" ++ toString db.uuid_counter, id, t, a.short_text, a.content,
              user_id, now⟩]) := by
  intro db faults id user_id now hf
  refine ⟨?_, ?_, ?_⟩
  · intro input a ha hs
    exact ⟨_, update_article_ok db faults id input user_id now a
      ((get_article_eq_ok db id a).mp ha) hf hs, rfl⟩
  · intro input p ha hs
    exact ⟨_, update_page_ok db faults id input user_id now p
      ((get_page_eq_ok db id p).mp ha) hf hs, rfl⟩
  · intro t a ha
    exact ⟨_, update_article_ok db faults id
      ⟨some t, none, none, none, none, none, none, none⟩ user_id now a
      ((get_article_eq_ok db id a).mp ha) hf (by simp), rfl⟩

/-- Concrete witness for C2: a title-only update of `a1` keeps content,
status and slug, and appends one revision with the new title and the
prior content. -/
theorem update_patch_merge_semantics_witness :
    ∃ db',
      Articles.update_article dbMain noFaults "a1"
          ⟨some "New Title", none, none, none, none, none, none, none⟩ "u9" 5 =
        (.ok { artDraft with
            title := "New Title"
            reading_time_minutes := estimate_reading_time artDraft.content
            updated_at := 5 }, db') ∧
      db'.article_revisions = dbMain.article_revisions ++
        [⟨"uuid-" ++ toString dbMain.uuid_counter, "a1", "New Title", artDraft.short_text,
          artDraft.content, "u9", 5⟩] :=
  (update_patch_merge_semantics dbMain noFaults "a1" "u9" 5 rfl).2.2 "New Title" artDraft
    (by decide)

/-- C9: trashing an item twice leaves exactly the state of trashing it
once at the second time — status `trashed`, `trashed_at` and
`updated_at` from the second call, nothing else changed in the content
table. -/
theorem trash_twice_idempotent :
    ∀ (db : DB) (faults : Faults) (id u1 u2 : String) (t1 t2 : Int),
      faults.audit_insert = false →
      (∀ a : Article, Articles.get_article db id = .ok a →
        (Articles.trash_article (Articles.trash_article db faults id u1 t1).2
            faults id u2 t2).2.articles =
          (Articles.trash_article db faults id u2 t2).2.articles ∧
        Articles.find_row
            (Articles.trash_article (Articles.trash_article db faults id u1 t1).2
              faults id u2 t2).2.articles id =
          some { a with status := "trashed", trashed_at := some t2, updated_at := t2 }) ∧
      (∀ p : Page, Pages.get_page db id = .ok p →
        (Pages.trash_page (Pages.trash_page db faults id u1 t1).2
            faults id u2 t2).2.pages =
          (Pages.trash_page db faults id u2 t2).2.pages ∧
        Pages.find_row
            (Pages.trash_page (Pages.trash_page db faults id u1 t1).2
              faults id u2 t2).2.pages id =
          some { p with status := "trashed", trashed_at := some t2, updated_at := t2 }) := by
  intro db faults id u1 u2 t1 t2 hf
  constructor
  · intro a ha
    have ha1 := (get_article_eq_ok db id a).mp ha
    have e1 := trash_article_ok db faults id u1 t1 a ha1 hf
    have hfind1 := article_find_row_update_rows db.articles id
      (fun x => { x with status := "trashed", trashed_at := some t1, updated_at := t1 })
      (fun x => rfl) a ha1
    rw [e1]
    have e2 := trash_article_ok
      { db with
        articles := Articles.update_rows db.articles id fun x =>
          { x with status := "trashed", trashed_at := some t1, updated_at := t1 }
        audit_log := db.audit_log ++
          [⟨"uuid-" ++ toString db.uuid_counter, u1, "trash", "article", id, []⟩]
        uuid_counter := db.uuid_counter + 1 }
      faults id u2 t2 _ hfind1 hf
    have e3 := trash_article_ok db faults id u2 t2 a ha1 hf
    rw [e2, e3]
    have hover := article_update_rows_override db.articles id
      (fun x => { x with status := "trashed", trashed_at := some t1, updated_at := t1 })
      (fun x => { x with status := "trashed", trashed_at := some t2, updated_at := t2 })
      (fun x => rfl) (fun x => rfl)
    constructor
    · exact hover
    · rw [show (Articles.update_rows
          (Articles.update_rows db.articles id fun x =>
            { x with status := "trashed", trashed_at := some t1, updated_at := t1 }) id
          fun x => { x with status := "trashed", trashed_at := some t2, updated_at := t2 }) =
          Articles.update_rows db.articles id fun x =>
            { x with status := "trashed", trashed_at := some t2, updated_at := t2 } from hover]
      exact article_find_row_update_rows db.articles id
        (fun x => { x with status := "trashed", trashed_at := some t2, updated_at := t2 })
        (fun x => rfl) a ha1
  · intro p ha
    have ha1 := (get_page_eq_ok db id p).mp ha
    have e1 := trash_page_ok db faults id u1 t1 p ha1 hf
    have hfind1 := page_find_row_update_rows db.pages id
      (fun x => { x with status := "trashed", trashed_at := some t1, updated_at := t1 })
      (fun x => rfl) p ha1
    rw [e1]
    have e2 := trash_page_ok
      { db with
        pages := Pages.update_rows db.pages id fun x =>
          { x with status := "trashed", trashed_at := some t1, updated_at := t1 }
        audit_log := db.audit_log ++
          [⟨"uuid-" ++ toString db.uuid_counter, u1, "trash", "page", id, []⟩]
        uuid_counter := db.uuid_counter + 1 }
      faults id u2 t2 _ hfind1 hf
    have e3 := trash_page_ok db faults id u2 t2 p ha1 hf
    rw [e2, e3]
    have hover := page_update_rows_override db.pages id
      (fun x => { x with status := "trashed", trashed_at := some t1, updated_at := t1 })
      (fun x => { x with status := "trashed", trashed_at := some t2, updated_at := t2 })
      (fun x => rfl) (fun x => rfl)
    constructor
    · exact hover
    · rw [show (Pages.update_rows
          (Pages.update_rows db.pages id fun x =>
            { x with status := "trashed", trashed_at := some t1, updated_at := t1 }) id
          fun x => { x with status := "trashed", trashed_at := some t2, updated_at := t2 }) =
          Pages.update_rows db.pages id fun x =>
            { x with status := "trashed", trashed_at := some t2, updated_at := t2 } from hover]
      exact page_find_row_update_rows db.pages id
        (fun x => { x with status := "trashed", trashed_at := some t2, updated_at := t2 })
        (fun x => rfl) p ha1

/-- Concrete witness for C9: trashing the draft article `a1` at time 3
and again at time 7 leaves the same `articles` table as trashing it
once at time 7, with `trashed_at = 7`. -/
theorem trash_twice_idempotent_witness :
    (Articles.trash_article (Articles.trash_article dbMain noFaults "a1" "u1" 3).2
        noFaults "a1" "u2" 7).2.articles =
      (Articles.trash_article dbMain noFaults "a1" "u2" 7).2.articles ∧
    Articles.find_row
        (Articles.trash_article (Articles.trash_article dbMain noFaults "a1" "u1" 3).2
          noFaults "a1" "u2" 7).2.articles "a1" =
      some { artDraft with status := "trashed", trashed_at := some 7, updated_at := 7 } :=
  (trash_twice_idempotent dbMain noFaults "a1" "u1" "u2" 3 7 rfl).1 artDraft (by decide)

/-- C10: `publish` modifies nothing but `status` and `updated_at` — on
a trashed item the previous non-null `trashed_at` survives, so a
published item can carry a non-null `trashed_at`; `update` also keeps
`trashed_at`, `trash` always writes a non-null value, and only
`restore` writes `trashed_at = NULL`. -/
theorem publish_keeps_trashed_at :
    ∀ (db : DB) (faults : Faults) (id user_id : String) (now : Int),
      faults.audit_insert = false →
      (∀ (a : Article) (t : Int),
        Articles.get_article db id = .ok a → a.trashed_at = some t →
        ∃ db', Articles.publish_article db faults id user_id now =
          (.ok { a with status := "published", updated_at := now }, db') ∧
          Articles.find_row db'.articles id =
            some { a with status := "published", updated_at := now } ∧
          ({ a with status := "published", updated_at := now } : Article).trashed_at =
            some t) ∧
      (∀ (p : Page) (t : Int),
        Pages.get_page db id = .ok p → p.trashed_at = some t →
        ∃ db', Pages.publish_page db faults id user_id now =
          (.ok { p with status := "published", updated_at := now }, db') ∧
          Pages.find_row db'.pages id =
            some { p with status := "published", updated_at := now } ∧
          ({ p with status := "published", updated_at := now } : Page).trashed_at =
            some t) ∧
      (∀ (input : UpdateArticle) (a : Article),
        Articles.get_article db id = .ok a →
        (if input.slug.getD a.slug != a.slug
         then Articles.ensure_slug_unique db (input.slug.getD a.slug) (some id)
         else Except.ok ()) = Except.ok () →
        ∃ db' row, Articles.update_article db faults id input user_id now =
          (.ok row, db') ∧ row.trashed_at = a.trashed_at) ∧
      (∀ a : Article, Articles.get_article db id = .ok a →
        ∃ db', Articles.trash_article db faults id user_id now = (.ok (), db') ∧
          Articles.find_row db'.articles id =
            some { a with status := "trashed", trashed_at := some now, updated_at := now }) ∧
      (∀ a : Article, Articles.get_article db id = .ok a → a.status = "trashed" →
        ∃ db' row, Articles.restore_article db faults id user_id now = (.ok row, db') ∧
          row.trashed_at = none) := by
  intro db faults id user_id now hf
  refine ⟨?_, ?_, ?_, ?_, ?_⟩
  · intro a t ha ht
    have ha1 := (get_article_eq_ok db id a).mp ha
    refine ⟨_, publish_article_ok db faults id user_id now a ha1 hf, ?_, ht⟩
    exact article_find_row_update_rows db.articles id
      (fun x => { x with status := "published", updated_at := now }) (fun x => rfl) a ha1
  · intro p t ha ht
    have ha1 := (get_page_eq_ok db id p).mp ha
    refine ⟨_, publish_page_ok db faults id user_id now p ha1 hf, ?_, ht⟩
    exact page_find_row_update_rows db.pages id
      (fun x => { x with status := "published", updated_at := now }) (fun x => rfl) p ha1
  · intro input a ha hs
    exact ⟨_, _, update_article_ok db faults id input user_id now a
      ((get_article_eq_ok db id a).mp ha) hf hs, rfl⟩
  · intro a ha
    have ha1 := (get_article_eq_ok db id a).mp ha
    refine ⟨_, trash_article_ok db faults id user_id now a ha1 hf, ?_⟩
    exact article_find_row_update_rows db.articles id
      (fun x => { x with status := "trashed", trashed_at := some now, updated_at := now })
      (fun x => rfl) a ha1
  · intro a ha hs
    exact ⟨_, _, restore_article_ok db faults id user_id now a
      ((get_article_eq_ok db id a).mp ha) hs hf, rfl⟩

/-- Concrete witness for C10: publishing the trashed article `a2` at
time 5 yields a published row that still carries `trashed_at = 1`. -/
theorem publish_keeps_trashed_at_witness :
    ∃ db', Articles.publish_article dbMain noFaults "a2" "u9" 5 =
      (.ok { artTrashed with status := "published", updated_at := 5 }, db') ∧
      Articles.find_row db'.articles "a2" =
        some { artTrashed with status := "published", updated_at := 5 } ∧
      ({ artTrashed with status := "published", updated_at := 5 } : Article).trashed_at =
        some 1 :=
  (publish_keeps_trashed_at dbMain noFaults "a2" "u9" 5 rfl).1 artTrashed 1 (by decide) rfl

/-- C8: `restore_revision` overwrites title/content (and `short_text`
for articles) with the revision's captured values, leaves status, slug
and `publish_at` at their prior values, and appends exactly one new
revision recording the restored content (no existing revision is
removed); it fails `NotFound` when the revision does not belong to the
given parent. -/
theorem restore_revision_applies_snapshot :
    ∀ (db : DB) (faults : Faults) (parent_id revision_id user_id : String) (now : Int),
      faults.audit_insert = false →
      ((db.article_revisions.find?
          fun r => r.id == revision_id && r.article_id == parent_id) = none →
        Articles.restore_revision db faults parent_id revision_id user_id now =
          (.error .NotFound, db)) ∧
      (∀ (r : ArticleRevision) (a : Article),
        (db.article_revisions.find?
          fun x => x.id == revision_id && x.article_id == parent_id) = some r →
        Articles.get_article db parent_id = .ok a →
        ∃ db',
          Articles.restore_revision db faults parent_id revision_id user_id now =
            (.ok { a with
                title := r.title
                short_text := r.short_text
                content := r.content
                reading_time_minutes := estimate_reading_time r.content
                updated_at := now }, db') ∧
          db'.article_revisions = db.article_revisions ++
            [⟨"uuid-" ++ toString db.uuid_counter, parent_id, r.title, r.short_text,
              r.content, user_id, now⟩]) ∧
      ((db.page_revisions.find?
          fun r => r.id == revision_id && r.page_id == parent_id) = none →
        Pages.restore_revision db faults parent_id revision_id user_id now =
          (.error .NotFound, db)) ∧
      (∀ (r : PageRevision) (p : Page),
        (db.page_revisions.find?
          fun x => x.id == revision_id && x.page_id == parent_id) = some r →
        Pages.get_page db parent_id = .ok p →
        ∃ db',
          Pages.restore_revision db faults parent_id revision_id user_id now =
            (.ok { p with
                title := r.title
                content := r.content
                updated_at := now }, db') ∧
          db'.page_revisions = db.page_revisions ++
            [⟨"uuid-" ++ toString db.uuid_counter, parent_id, r.title, r.content,
              user_id, now⟩]) := by
  intro db faults parent_id revision_id user_id now hf
  refine ⟨?_, ?_, ?_, ?_⟩
  · intro h
    exact restore_revision_article_not_found db faults parent_id revision_id user_id now h
  · intro r a hrev ha
    rw [restore_revision_article_found db faults parent_id revision_id user_id now r hrev]
    exact ⟨_, update_article_ok db faults parent_id
      ⟨some r.title, none, some r.short_text, some r.content, none, none, none, none⟩
      user_id now a ((get_article_eq_ok db parent_id a).mp ha) hf (by simp), rfl⟩
  · intro h
    exact restore_revision_page_not_found db faults parent_id revision_id user_id now h
  · intro r p hrev ha
    rw [restore_revision_page_found db faults parent_id revision_id user_id now r hrev]
    exact ⟨_, update_page_ok db faults parent_id
      ⟨some r.title, none, some r.content, none, none, none⟩
      user_id now p ((get_page_eq_ok db parent_id p).mp ha) hf (by simp), rfl⟩

/-- Concrete witness for C8: restoring revision `r1` of article `a1`
overwrites title/short_text/content from the snapshot, keeps slug and
status, and appends one revision; a revision id that does not belong to
`a1` yields `NotFound`. -/
theorem restore_revision_applies_snapshot_witness :
    (∃ db',
      Articles.restore_revision dbMain noFaults "a1" "r1" "u9" 5 =
        (.ok { artDraft with
            title := "Rev title"
            short_text := "rst"
            content := "rcontent"
            reading_time_minutes := estimate_reading_time "rcontent"
            updated_at := 5 }, db') ∧
      db'.article_revisions = dbMain.article_revisions ++
        [⟨"uuid-" ++ toString dbMain.uuid_counter, "a1", "Rev title", "rst", "rcontent",
          "u9", 5⟩]) ∧
    Articles.restore_revision dbMain noFaults "a2" "r1" "u9" 5 =
      (.error .NotFound, dbMain) := by
  constructor
  · exact (restore_revision_applies_snapshot dbMain noFaults "a1" "r1" "u9" 5 rfl).2.1
      revA artDraft (by decide) (by decide)
  · exact (restore_revision_applies_snapshot dbMain noFaults "a2" "r1" "u9" 5 rfl).1
      (by decide)

/-- Counterexample to C3 as stated: with the audit-log INSERT failing,
a title-only update of `a1` persists the merged row and appends its
revision — the content mutation succeeded — yet the operation returns
an error to the caller instead of success. -/
theorem audit_failure_surfaces_counterexample :
    (Articles.update_article dbMain auditFault "a1"
        ⟨some "New Title", none, none, none, none, none, none, none⟩ "u9" 5).1 =
      .error (.Database "audit log insert failed") ∧
    ((Articles.update_article dbMain auditFault "a1"
        ⟨some "New Title", none, none, none, none, none, none, none⟩ "u9" 5).2.articles.map
      fun a => a.title) = ["New Title", "Old title"] ∧
    (Articles.update_article dbMain auditFault "a1"
        ⟨some "New Title", none, none, none, none, none, none, none⟩
        "u9" 5).2.article_revisions.length = dbMain.article_revisions.length + 1 := by
  decide

/-- C3 amended: a failing audit-log write never rolls back the primary
mutation — the content row change (and, for create/update, the new
revision) is already persisted — but the audit error is returned to
the caller instead of success. -/
theorem audit_failure_no_rollback :
    ∀ (db : DB) (faults : Faults) (user_id : String) (now : Int),
      faults.audit_insert = true →
      (∀ (id : String) (a : Article), Articles.get_article db id = .ok a →
        (Articles.trash_article db faults id user_id now).1 =
          .error (.Database "audit log insert failed") ∧
        (Articles.trash_article db faults id user_id now).2.articles =
          Articles.update_rows db.articles id fun x =>
            { x with status := "trashed", trashed_at := some now, updated_at := now }) ∧
      (∀ (id : String) (a : Article), Articles.get_article db id = .ok a →
        (Articles.publish_article db faults id user_id now).1 =
          .error (.Database "audit log insert failed") ∧
        (Articles.publish_article db faults id user_id now).2.articles =
          Articles.update_rows db.articles id fun x =>
            { x with status := "published", updated_at := now }) ∧
      (∀ (id : String) (a : Article),
        Articles.get_article db id = .ok a → a.status = "trashed" →
        (Articles.restore_article db faults id user_id now).1 =
          .error (.Database "audit log insert failed") ∧
        (Articles.restore_article db faults id user_id now).2.articles =
          Articles.update_rows db.articles id fun x =>
            { x with status := "draft", trashed_at := none, updated_at := now }) ∧
      (∀ (id : String) (input : UpdateArticle) (a : Article),
        Articles.get_article db id = .ok a →
        (if input.slug.getD a.slug != a.slug
         then Articles.ensure_slug_unique db (input.slug.getD a.slug) (some id)
         else Except.ok ()) = Except.ok () →
        (Articles.update_article db faults id input user_id now).1 =
          .error (.Database "audit log insert failed") ∧
        (Articles.update_article db faults id input user_id now).2.articles =
          (Articles.update_rows db.articles id fun x =>
            { x with
              title := input.title.getD a.title
              slug := input.slug.getD a.slug
              short_text := input.short_text.getD a.short_text
              content := input.content.getD a.content
              status := input.status.getD a.status
              publish_at := if input.publish_at.isSome then input.publish_at else a.publish_at
              cover_image_id :=
                if input.cover_image_id.isSome then input.cover_image_id else a.cover_image_id
              reading_time_minutes := estimate_reading_time (input.content.getD a.content)
              updated_at := now }) ∧
        (Articles.update_article db faults id input user_id now).2.article_revisions =
          db.article_revisions ++
            [⟨"uuid-" ++ toString db.uuid_counter, id, input.title.getD a.title,
              input.short_text.getD a.short_text, input.content.getD a.content,
              user_id, now⟩]) ∧
      (∀ (input : CreateArticle) (author_id : String),
        Articles.ensure_slug_unique db (input.slug.getD (slugify input.title)) none =
          .ok () →
        (Articles.create_article db faults input author_id now).1 =
          .error (.Database "audit log insert failed") ∧
        ∃ row : Article,
          (Articles.create_article db faults input author_id now).2.articles =
            db.articles ++ [row] ∧
          row.title = input.title ∧
          row.slug = input.slug.getD (slugify input.title)) ∧
      (∀ (parent_id revision_id : String) (r : ArticleRevision) (a : Article),
        (db.article_revisions.find?
          fun x => x.id == revision_id && x.article_id == parent_id) = some r →
        Articles.get_article db parent_id = .ok a →
        (Articles.restore_revision db faults parent_id revision_id user_id now).1 =
          .error (.Database "audit log insert failed") ∧
        (Articles.restore_revision db faults parent_id revision_id
            user_id now).2.article_revisions =
          db.article_revisions ++
            [⟨"uuid-" ++ toString db.uuid_counter, parent_id, r.title, r.short_text,
              r.content, user_id, now⟩]) := by
  intro db faults user_id now hf
  refine ⟨?_, ?_, ?_, ?_, ?_, ?_⟩
  · intro id a ha
    rw [trash_article_audit_fault db faults id user_id now a
      ((get_article_eq_ok db id a).mp ha) hf]
    exact ⟨rfl, rfl⟩
  · intro id a ha
    rw [publish_article_audit_fault db faults id user_id now a
      ((get_article_eq_ok db id a).mp ha) hf]
    exact ⟨rfl, rfl⟩
  · intro id a ha hs
    rw [restore_article_audit_fault db faults id user_id now a
      ((get_article_eq_ok db id a).mp ha) hs hf]
    exact ⟨rfl, rfl⟩
  · intro id input a ha hs
    rw [update_article_audit_fault db faults id input user_id now a
      ((get_article_eq_ok db id a).mp ha) hf hs]
    exact ⟨rfl, rfl, rfl⟩
  · intro input author_id hok
    rw [create_article_audit_fault db faults input author_id now hok hf]
    exact ⟨rfl, _, rfl, rfl, rfl⟩
  · intro parent_id revision_id r a hrev ha
    rw [restore_revision_article_found db faults parent_id revision_id user_id now r hrev,
      update_article_audit_fault db faults parent_id
        ⟨some r.title, none, some r.short_text, some r.content, none, none, none, none⟩
        user_id now a ((get_article_eq_ok db parent_id a).mp ha) hf (by simp)]
    exact ⟨rfl, rfl⟩

/-- Concrete witness for the amended C3: trashing `a1` under a failing
audit INSERT returns the audit error while the row is already
trashed. -/
theorem audit_failure_no_rollback_witness :
    (Articles.trash_article dbMain auditFault "a1" "u9" 5).1 =
      .error (.Database "audit log insert failed") ∧
    (Articles.trash_article dbMain auditFault "a1" "u9" 5).2.articles =
      Articles.update_rows dbMain.articles "a1" fun x =>
        { x with status := "trashed", trashed_at := some 5, updated_at := 5 } :=
  (audit_failure_no_rollback dbMain auditFault "u9" 5 rfl).1 "a1" artDraft (by decide)

/-- Counterexample to C4 as stated: when scheduler statement 1 (promote
scheduled pages) fails, the whole tick aborts — the due scheduled
article is left unpromoted, the expired trashed article is not swept
and the expired session survives, even though none of those steps
failed themselves. -/
theorem scheduler_partial_failure_counterexample :
    Tasks.run_scheduled_tasks dbSched promotePagesFault 10 =
      (.error "promote pages failed", dbSched) ∧
    artScheduled ∈ dbSched.articles ∧
    artScheduled.status = "scheduled" ∧
    artScheduled.publish_at = some 0 ∧
    ((Tasks.run_scheduled_tasks dbSched promotePagesFault 10).2.articles.map
      fun a => a.status) = ["scheduled", "trashed"] ∧
    (Tasks.run_scheduled_tasks dbSched promotePagesFault 10).2.sessions ≠ [] := by
  decide

/-- C4 amended: a failing statement aborts the remainder of the tick.
`run_scheduled_tasks` returns that statement's error immediately: the
effects of the statements already executed persist, the statements
after it do not run in that tick (recovery comes from the next tick
rerunning everything). -/
theorem scheduler_step_failure_aborts_tick :
    ∀ (db : DB) (faults : Faults) (now : Int),
      (faults.promote_pages = true →
        Tasks.run_scheduled_tasks db faults now = (.error "promote pages failed", db)) ∧
      (faults.promote_pages = false → faults.promote_articles = false →
        faults.sweep_pages = true →
        Tasks.run_scheduled_tasks db faults now =
          (.error "sweep pages failed",
           Tasks.promote_scheduled_articles (Tasks.promote_scheduled_pages db now) now)) := by
  intro db faults now
  constructor
  · intro h1
    simp [Tasks.run_scheduled_tasks, h1]
  · intro h1 h2 h3
    simp [Tasks.run_scheduled_tasks, h1, h2, h3]

/-- Concrete witness for the amended C4: with statement 3 failing, the
tick returns its error after running both promotion statements and
nothing else. -/
theorem scheduler_step_failure_aborts_tick_witness :
    Tasks.run_scheduled_tasks dbSched sweepPagesFault 10 =
      (.error "sweep pages failed",
       Tasks.promote_scheduled_articles (Tasks.promote_scheduled_pages dbSched 10) 10) :=
  (scheduler_step_failure_aborts_tick dbSched sweepPagesFault 10).2 rfl rfl rfl

/-- Filtering for a predicate right after filtering for its negation
leaves nothing. -/
theorem filter_not_filter_nil {α : Type} (p : α → Bool) (l : List α) :
    (l.filter fun x => !(p x)).filter p = [] := by
  induction l with
  | nil => rfl
  | cons hd tl ih =>
    by_cases h : p hd = true <;> simp [List.filter_cons, h, ih]

/-- Filtering twice with the same predicate equals filtering once. -/
theorem filter_idem {α : Type} (q : α → Bool) (l : List α) :
    (l.filter q).filter q = l.filter q := by
  induction l with
  | nil => rfl
  | cons hd tl ih =>
    by_cases h : q hd = true <;> simp [List.filter_cons, h, ih]

/-- C6: the explicit empty-trash endpoint and the scheduler's trash
sweep delete exactly the same set — items with status `trashed` and
`trashed_at` older than 30 days, for both content types — so the two
paths are interchangeable; running one right after the other deletes
nothing the second time, and items trashed within the window are left
untouched by both. -/
theorem trash_sweep_paths_agree :
    ∀ (db : DB) (now : Int),
      (TrashApi.empty db now).2 =
        Tasks.sweep_trashed_articles (Tasks.sweep_trashed_pages db now) now ∧
      (TrashApi.empty
        (Tasks.sweep_trashed_articles (Tasks.sweep_trashed_pages db now) now) now).1 =
        (0, 0) ∧
      Tasks.sweep_trashed_pages (TrashApi.empty db now).2 now = (TrashApi.empty db now).2 ∧
      Tasks.sweep_trashed_articles (TrashApi.empty db now).2 now =
        (TrashApi.empty db now).2 ∧
      (∀ p ∈ db.pages, p.status = "trashed" → ∀ t : Int, p.trashed_at = some t →
        ¬(t < now - days30) →
        p ∈ (TrashApi.empty db now).2.pages ∧
        p ∈ (Tasks.sweep_trashed_pages db now).pages) ∧
      (∀ a ∈ db.articles, a.status = "trashed" → ∀ t : Int, a.trashed_at = some t →
        ¬(t < now - days30) →
        a ∈ (TrashApi.empty db now).2.articles ∧
        a ∈ (Tasks.sweep_trashed_articles db now).articles) := by
  intro db now
  refine ⟨rfl, ?_, ?_, ?_, ?_, ?_⟩
  · show (((db.pages.filter fun p => !(TrashApi.page_expired p now)).filter
        fun p => TrashApi.page_expired p now).length,
      ((db.articles.filter fun a => !(TrashApi.article_expired a now)).filter
        fun a => TrashApi.article_expired a now).length) = (0, 0)
    rw [filter_not_filter_nil, filter_not_filter_nil]
    rfl
  · show ({ db with
        pages := (db.pages.filter fun p => !(TrashApi.page_expired p now)).filter
          fun p => !(TrashApi.page_expired p now)
        articles := db.articles.filter fun a => !(TrashApi.article_expired a now) } : DB) =
      { db with
        pages := db.pages.filter fun p => !(TrashApi.page_expired p now)
        articles := db.articles.filter fun a => !(TrashApi.article_expired a now) }
    rw [filter_idem]
  · show ({ db with
        pages := db.pages.filter fun p => !(TrashApi.page_expired p now)
        articles := (db.articles.filter fun a => !(TrashApi.article_expired a now)).filter
          fun a => !(TrashApi.article_expired a now) } : DB) =
      { db with
        pages := db.pages.filter fun p => !(TrashApi.page_expired p now)
        articles := db.articles.filter fun a => !(TrashApi.article_expired a now) }
    rw [filter_idem]
  · intro p hmem hst t ht hlt
    have hkeep : (!(TrashApi.page_expired p now)) = true := by
      simp [TrashApi.page_expired, hst, ht]
      omega
    exact ⟨List.mem_filter.mpr ⟨hmem, hkeep⟩, List.mem_filter.mpr ⟨hmem, hkeep⟩⟩
  · intro a hmem hst t ht hlt
    have hkeep : (!(TrashApi.article_expired a now)) = true := by
      simp [TrashApi.article_expired, hst, ht]
      omega
    exact ⟨List.mem_filter.mpr ⟨hmem, hkeep⟩, List.mem_filter.mpr ⟨hmem, hkeep⟩⟩

/-- Concrete witness for C6: the article trashed 9 seconds before
`now = 10` is kept by both deletion paths. -/
theorem trash_sweep_paths_agree_witness :
    artTrashed ∈ (TrashApi.empty dbMain 10).2.articles ∧
    artTrashed ∈ (Tasks.sweep_trashed_articles dbMain 10).articles :=
  (trash_sweep_paths_agree dbMain 10).2.2.2.2.2 artTrashed (by decide) (by decide) 1
    (by decide) (by decide)

/-- C7: after one fault-free scheduler tick, every content item that
was `scheduled` with `publish_at <= now` is `published` with
`updated_at` bumped to the tick time; every item that was neither due
for promotion nor an expired trashed row survives the tick completely
unchanged (in particular it keeps its status). -/
theorem scheduler_tick_promotes_due_items :
    ∀ (db : DB) (now : Int),
      (Tasks.run_scheduled_tasks db noFaults now).1 = .ok () ∧
      (∀ a ∈ db.articles, a.status = "scheduled" → ∀ t : Int, a.publish_at = some t →
        t ≤ now →
        { a with status := "published", updated_at := now } ∈
          (Tasks.run_scheduled_tasks db noFaults now).2.articles) ∧
      (∀ p ∈ db.pages, p.status = "scheduled" → ∀ t : Int, p.publish_at = some t →
        t ≤ now →
        { p with status := "published", updated_at := now } ∈
          (Tasks.run_scheduled_tasks db noFaults now).2.pages) ∧
      (∀ a ∈ db.articles,
        ¬(a.status = "scheduled" ∧ ∃ t : Int, a.publish_at = some t ∧ t ≤ now) →
        ¬(a.status = "trashed" ∧ ∃ t : Int, a.trashed_at = some t ∧ t < now - days30) →
        a ∈ (Tasks.run_scheduled_tasks db noFaults now).2.articles) ∧
      (∀ p ∈ db.pages,
        ¬(p.status = "scheduled" ∧ ∃ t : Int, p.publish_at = some t ∧ t ≤ now) →
        ¬(p.status = "trashed" ∧ ∃ t : Int, p.trashed_at = some t ∧ t < now - days30) →
        p ∈ (Tasks.run_scheduled_tasks db noFaults now).2.pages) := by
  intro db now
  have hrun : Tasks.run_scheduled_tasks db noFaults now =
      (.ok (), Tasks.sweep_expired_sessions
        (Tasks.sweep_trashed_articles
          (Tasks.sweep_trashed_pages
            (Tasks.promote_scheduled_articles
              (Tasks.promote_scheduled_pages db now) now) now) now) now) := by
    simp [Tasks.run_scheduled_tasks, noFaults]
  rw [hrun]
  refine ⟨rfl, ?_, ?_, ?_, ?_⟩
  · intro a hmem hst t hp hle
    show { a with status := "published", updated_at := now } ∈
      ((db.articles.map fun x =>
        if x.status == "scheduled" && (match x.publish_at with
          | some u => decide (u ≤ now)
          | none => false) then
          { x with status := "published", updated_at := now }
        else x).filter fun x =>
          !(x.status == "trashed" && (match x.trashed_at with
            | some u => decide (u < now - days30)
            | none => false)))
    refine List.mem_filter.mpr ⟨List.mem_map.mpr ⟨a, hmem, ?_⟩, ?_⟩
    · simp [hst, hp, hle]
    · simp
  · intro p hmem hst t hp hle
    show { p with status := "published", updated_at := now } ∈
      ((db.pages.map fun x =>
        if x.status == "scheduled" && (match x.publish_at with
          | some u => decide (u ≤ now)
          | none => false) then
          { x with status := "published", updated_at := now }
        else x).filter fun x =>
          !(x.status == "trashed" && (match x.trashed_at with
            | some u => decide (u < now - days30)
            | none => false)))
    refine List.mem_filter.mpr ⟨List.mem_map.mpr ⟨p, hmem, ?_⟩, ?_⟩
    · simp [hst, hp, hle]
    · simp
  · intro a hmem hnot hnotexp
    show a ∈
      ((db.articles.map fun x =>
        if x.status == "scheduled" && (match x.publish_at with
          | some u => decide (u ≤ now)
          | none => false) then
          { x with status := "published", updated_at := now }
        else x).filter fun x =>
          !(x.status == "trashed" && (match x.trashed_at with
            | some u => decide (u < now - days30)
            | none => false)))
    refine List.mem_filter.mpr ⟨List.mem_map.mpr ⟨a, hmem, ?_⟩, ?_⟩
    · by_cases hsc : a.status = "scheduled"
      · cases hp : a.publish_at with
        | none => simp [hsc, hp]
        | some t =>
          have hnle : ¬ t ≤ now := fun hle => hnot ⟨hsc, t, hp, hle⟩
          simp [hsc, hp, hnle]
      · simp [hsc]
    · by_cases hts : a.status = "trashed"
      · cases ht : a.trashed_at with
        | none => simp [hts, ht]
        | some t =>
          have hnlt : ¬ t < now - days30 := fun hlt => hnotexp ⟨hts, t, ht, hlt⟩
          simp [hts, ht, hnlt]
      · simp [hts]
  · intro p hmem hnot hnotexp
    show p ∈
      ((db.pages.map fun x =>
        if x.status == "scheduled" && (match x.publish_at with
          | some u => decide (u ≤ now)
          | none => false) then
          { x with status := "published", updated_at := now }
        else x).filter fun x =>
          !(x.status == "trashed" && (match x.trashed_at with
            | some u => decide (u < now - days30)
            | none => false)))
    refine List.mem_filter.mpr ⟨List.mem_map.mpr ⟨p, hmem, ?_⟩, ?_⟩
    · by_cases hsc : p.status = "scheduled"
      · cases hp : p.publish_at with
        | none => simp [hsc, hp]
        | some t =>
          have hnle : ¬ t ≤ now := fun hle => hnot ⟨hsc, t, hp, hle⟩
          simp [hsc, hp, hnle]
      · simp [hsc]
    · by_cases hts : p.status = "trashed"
      · cases ht : p.trashed_at with
        | none => simp [hts, ht]
        | some t =>
          have hnlt : ¬ t < now - days30 := fun hlt => hnotexp ⟨hts, t, ht, hlt⟩
          simp [hts, ht, hnlt]
      · simp [hts]

/-- Concrete witness for C7: after one fault-free tick at `now = 10`,
the article scheduled for time 0 is present as published with
`updated_at = 10`, and the recently trashed article of `dbMain` is
untouched. -/
theorem scheduler_tick_promotes_due_items_witness :
    { artScheduled with status := "published", updated_at := 10 } ∈
      (Tasks.run_scheduled_tasks dbSched noFaults 10).2.articles ∧
    artTrashed ∈ (Tasks.run_scheduled_tasks dbMain noFaults 10).2.articles := by
  constructor
  · exact (scheduler_tick_promotes_due_items dbSched 10).2.1 artScheduled (by decide)
      (by decide) 0 (by decide) (by decide)
  · exact (scheduler_tick_promotes_due_items dbMain 10).2.2.2.1 artTrashed (by decide)
      (by decide) (by decide)
/-- With pairwise-distinct slugs, two article rows with the same slug
coincide. -/
theorem slug_unique_article {l : List Article}
    (hp : l.Pairwise fun x y => x.slug ≠ y.slug) {a b : Article}
    (ha : a ∈ l) (hb : b ∈ l) (hsl : a.slug = b.slug) : a = b := by
  by_contra hne
  refine (hp.forall ?_ ha hb hne) hsl
  intro x y h e
  exact h e.symm

/-- With pairwise-distinct slugs, two page rows with the same slug
coincide. -/
theorem slug_unique_page {l : List Page}
    (hp : l.Pairwise fun x y => x.slug ≠ y.slug) {a b : Page}
    (ha : a ∈ l) (hb : b ∈ l) (hsl : a.slug = b.slug) : a = b := by
  by_contra hne
  refine (hp.forall ?_ ha hb hne) hsl
  intro x y h e
  exact h e.symm

/-- C5: the slug check succeeds iff no other item of the same content
type currently holds the candidate slug (the item being updated is
excluded); a failing check is always a `Conflict`; on collision create
and update return that error without touching any row; and a
successful create stores the candidate slug verbatim (never
auto-suffixed). -/
theorem slug_resolver_check_spec :
    ∀ (db : DB) (slug : String) (exclude_id : Option String),
      ((db.articles.Pairwise fun x y => x.slug ≠ y.slug) →
        (Articles.ensure_slug_unique db slug exclude_id = .ok () ↔
          ∀ a ∈ db.articles, a.slug = slug → exclude_id = some a.id)) ∧
      ((db.pages.Pairwise fun x y => x.slug ≠ y.slug) →
        (Pages.ensure_slug_unique db slug exclude_id = .ok () ↔
          ∀ p ∈ db.pages, p.slug = slug → exclude_id = some p.id)) ∧
      (∀ e : AppError, Articles.ensure_slug_unique db slug exclude_id = .error e →
        ∃ msg, e = AppError.Conflict msg) ∧
      (∀ e : AppError, Pages.ensure_slug_unique db slug exclude_id = .error e →
        ∃ msg, e = AppError.Conflict msg) ∧
      (∀ (faults : Faults) (input : CreateArticle) (author_id : String) (now : Int)
          (e : AppError),
        Articles.ensure_slug_unique db (input.slug.getD (slugify input.title)) none =
          .error e →
        Articles.create_article db faults input author_id now = (.error e, db)) ∧
      (∀ (faults : Faults) (input : CreatePage) (author_id : String) (now : Int)
          (e : AppError),
        Pages.ensure_slug_unique db (input.slug.getD (slugify input.title)) none =
          .error e →
        Pages.create_page db faults input author_id now = (.error e, db)) ∧
      (∀ (faults : Faults) (id : String) (input : UpdateArticle) (user_id : String)
          (now : Int) (a : Article) (e : AppError),
        Articles.get_article db id = .ok a →
        input.slug.getD a.slug ≠ a.slug →
        Articles.ensure_slug_unique db (input.slug.getD a.slug) (some id) = .error e →
        Articles.update_article db faults id input user_id now = (.error e, db)) ∧
      (∀ (faults : Faults) (id : String) (input : UpdatePage) (user_id : String)
          (now : Int) (p : Page) (e : AppError),
        Pages.get_page db id = .ok p →
        input.slug.getD p.slug ≠ p.slug →
        Pages.ensure_slug_unique db (input.slug.getD p.slug) (some id) = .error e →
        Pages.update_page db faults id input user_id now = (.error e, db)) ∧
      (∀ (faults : Faults) (input : CreateArticle) (author_id : String) (now : Int),
        faults.audit_insert = false →
        Articles.ensure_slug_unique db (input.slug.getD (slugify input.title)) none =
          .ok () →
        Articles.find_row db.articles ("uuid-" ++ toString db.uuid_counter) = none →
        ∃ (row : Article) (db' : DB),
          Articles.create_article db faults input author_id now = (.ok row, db') ∧
          row.slug = input.slug.getD (slugify input.title) ∧
          db'.articles = db.articles ++ [row]) := by
  intro db slug exclude_id
  refine ⟨?_, ?_, ?_, ?_, ?_, ?_, ?_, ?_, ?_⟩
  · intro hp
    unfold Articles.ensure_slug_unique
    cases hfind : db.articles.find? fun a => a.slug == slug with
    | none =>
      have hnone := List.find?_eq_none.mp hfind
      constructor
      · intro _ a hmem hsl
        exact absurd (by simp [hsl]) (hnone a hmem)
      · intro _
        rfl
    | some f =>
      have hfmem := List.mem_of_find?_eq_some hfind
      have hfslug : (f.slug == slug) = true :=
        @List.find?_some _ (fun a => a.slug == slug) f db.articles hfind
      rw [beq_iff_eq] at hfslug
      cases exclude_id with
      | none =>
        constructor
        · intro h
          simp at h
        · intro h
          have := h f hfmem hfslug
          simp at this
      | some excl =>
        by_cases hid : f.id = excl
        · constructor
          · intro _ a hmem hsl
            have haf : a = f := slug_unique_article hp hmem hfmem (hsl.trans hfslug.symm)
            simp [haf, hid]
          · intro _
            simp [hid]
        · constructor
          · intro h
            simp [hid] at h
          · intro h
            have := h f hfmem hfslug
            simp at this
            exact absurd this.symm hid
  · intro hp
    unfold Pages.ensure_slug_unique
    cases hfind : db.pages.find? fun p => p.slug == slug with
    | none =>
      have hnone := List.find?_eq_none.mp hfind
      constructor
      · intro _ p hmem hsl
        exact absurd (by simp [hsl]) (hnone p hmem)
      · intro _
        rfl
    | some f =>
      have hfmem := List.mem_of_find?_eq_some hfind
      have hfslug : (f.slug == slug) = true :=
        @List.find?_some _ (fun p => p.slug == slug) f db.pages hfind
      rw [beq_iff_eq] at hfslug
      cases exclude_id with
      | none =>
        constructor
        · intro h
          simp at h
        · intro h
          have := h f hfmem hfslug
          simp at this
      | some excl =>
        by_cases hid : f.id = excl
        · constructor
          · intro _ p hmem hsl
            have hpf : p = f := slug_unique_page hp hmem hfmem (hsl.trans hfslug.symm)
            simp [hpf, hid]
          · intro _
            simp [hid]
        · constructor
          · intro h
            simp [hid] at h
          · intro h
            have := h f hfmem hfslug
            simp at this
            exact absurd this.symm hid
  · intro e he
    unfold Articles.ensure_slug_unique at he
    cases hfind : db.articles.find? fun a => a.slug == slug with
    | none =>
      rw [hfind] at he
      simp at he
    | some f =>
      rw [hfind] at he
      cases exclude_id with
      | none =>
        simp at he
        exact ⟨_, he.symm⟩
      | some excl =>
        by_cases hid : f.id = excl
        · simp [hid] at he
        · simp [hid] at he
          exact ⟨_, he.symm⟩
  · intro e he
    unfold Pages.ensure_slug_unique at he
    cases hfind : db.pages.find? fun p => p.slug == slug with
    | none =>
      rw [hfind] at he
      simp at he
    | some f =>
      rw [hfind] at he
      cases exclude_id with
      | none =>
        simp at he
        exact ⟨_, he.symm⟩
      | some excl =>
        by_cases hid : f.id = excl
        · simp [hid] at he
        · simp [hid] at he
          exact ⟨_, he.symm⟩
  · intro faults input author_id now e he
    exact create_article_conflict db faults input author_id now e he
  · intro faults input author_id now e he
    exact create_page_conflict db faults input author_id now e he
  · intro faults id input user_id now a e ha hne he
    exact update_article_conflict db faults id input user_id now a e
      ((get_article_eq_ok db id a).mp ha) hne he
  · intro faults id input user_id now p e ha hne he
    exact update_page_conflict db faults id input user_id now p e
      ((get_page_eq_ok db id p).mp ha) hne he
  · intro faults input author_id now hf hok hfresh
    exact ⟨_, _, create_article_ok db faults input author_id now hok hf hfresh, rfl, rfl⟩

/-- Concrete witness for C5: updating `a1` keeps its own slug available
(the item itself is excluded), while creating a second article with the
taken slug `old-title` fails with `Conflict` and leaves the state
unchanged. -/
theorem slug_resolver_check_spec_witness :
    Articles.ensure_slug_unique dbMain "old-title" (some "a1") = .ok () ∧
    Articles.create_article dbMain noFaults
        ⟨"Anything", some "old-title", none, none, none, none, none, none⟩ "u9" 5 =
      (.error (.Conflict "An article with slug \x27old-title\x27 already exists"),
       dbMain) := by
  constructor
  · exact ((slug_resolver_check_spec dbMain "old-title" (some "a1")).1 (by decide)).mpr
      (by decide)
  · exact (slug_resolver_check_spec dbMain "old-title" none).2.2.2.2.1 noFaults
      ⟨"Anything", some "old-title", none, none, none, none, none, none⟩ "u9" 5
      (.Conflict "An article with slug \x27old-title\x27 already exists") (by decide)
end Pawtal
